import Mathlib

/-!
# Payment integration: a shallow embedding of the charge pipeline

The Go packages `converter`, `mapper`, `middleware`, `bank` and `server` of
the payment integration service, embedded as Lean functions, and the
properties of the specification proved (or refuted) over them.

Conventions of the embedding

* `int64` / `int32` values are integers (`Int`); every arithmetic operation of
  the source that can wrap is followed by `wrapInt64` / `wrapInt32`
  (two's complement wrap-around, as Go specifies for signed overflow).
* Go's `/` and `%` on integers truncate toward zero: `Int.tdiv` / `Int.tmod`.
* A Go `string` is its sequence of bytes (`GoString`); `len` is the number of
  bytes and slicing is by byte index, as in Go.
* A Go `error` is `Option String`: `none` is `nil`, `some msg` an error.
* A pointer that may be `nil` is an `Option`.
* Stateful code passes its state explicitly; what the code reads from outside
  (the clock, the UUID generator, the network, the JSON decoder) is an
  argument of the function that reads it.
-/

/-! ## Machine integers -/

/-- Two's complement wrap-around of an integer into the `int64` range. -/
def wrapInt64 (x : Int) : Int := (x + 2 ^ 63) % 2 ^ 64 - 2 ^ 63

/-- Two's complement wrap-around of an integer into the `int32` range. -/
def wrapInt32 (x : Int) : Int := (x + 2 ^ 31) % 2 ^ 32 - 2 ^ 31

/-- The integer is a value of Go's `int64`. -/
def isInt64 (x : Int) : Prop := -(2 ^ 63) ≤ x ∧ x < 2 ^ 63

/-- The integer is a value of Go's `int32`. -/
def isInt32 (x : Int) : Prop := -(2 ^ 31) ≤ x ∧ x < 2 ^ 31

instance (x : Int) : Decidable (isInt64 x) := by unfold isInt64; infer_instance

instance (x : Int) : Decidable (isInt32 x) := by unfold isInt32; infer_instance

/-! ## Go strings -/

/-- One byte of a Go string. -/
abbrev Byte := Fin 256

/-- A Go `string`: an immutable sequence of bytes. -/
abbrev GoString := List Byte

/-- UTF-8 encoding of one code point, as the Go compiler encodes the
characters of a string literal. -/
def encodeRune (n : Nat) : List Byte :=
  if n < 0x80 then [Fin.ofNat n]
  else if n < 0x800 then [Fin.ofNat (0xC0 + n / 64), Fin.ofNat (0x80 + n % 64)]
  else if n < 0x10000 then
    [Fin.ofNat (0xE0 + n / 4096), Fin.ofNat (0x80 + n / 64 % 64), Fin.ofNat (0x80 + n % 64)]
  else
    [Fin.ofNat (0xF0 + n / 262144), Fin.ofNat (0x80 + n / 4096 % 64),
     Fin.ofNat (0x80 + n / 64 % 64), Fin.ofNat (0x80 + n % 64)]

/-- The Go string written as the literal `s` in a Go source file. -/
def goStr (s : String) : GoString := s.toList.flatMap (fun c => encodeRune c.toNat)

/-- A Go `error` value: `none` is `nil`. -/
abbrev GoError := Option String

namespace converter

/-- Modelled from the spec: the generated protobuf type `pb.Money` is not
among the sources; a Money is whole units (`Units`, an `int64`), fractional
billionths (`Nanos`, an `int32`) and a currency code. -/
structure Money where
  Units : Int
  Nanos : Int
  CurrencyCode : GoString
deriving DecidableEq, Repr

/-- The fields of the message are values of their Go types. -/
def Money.wellTyped (m : Money) : Prop := isInt64 m.Units ∧ isInt32 m.Nanos

instance (m : Money) : Decidable m.wellTyped := by unfold Money.wellTyped; infer_instance

/-- `BoutiqueMoneyToCents(money *pb.Money) (int64, error)` of `converter/money.go`. -/
def BoutiqueMoneyToCents (money : Option Money) : Int × GoError :=
  match money with
  | none => (0, some "money cannot be nil")
  | some money =>
    let cents := wrapInt64 (money.Units * 100)
    let nanosInCents := wrapInt32 (Int.tdiv money.Nanos 10000000)
    -- `int64(nanosInCents)` is a sign extension: the value is unchanged
    let totalCents := wrapInt64 (cents + nanosInCents)
    if totalCents < 0 ∧ money.Units ≥ 0 ∧ money.Nanos ≥ 0 then
      (0, some "money conversion overflow")
    else
      (totalCents, none)

/-- The `units` local of `CentsToBoutiqueMoney`: `cents / 100`. -/
def centsUnits (cents : Int) : Int := wrapInt64 (Int.tdiv cents 100)

/-- The `nanos` local of `CentsToBoutiqueMoney` before the negative-amount
block: `(cents % 100) * 10_000_000`. -/
def centsNanos (cents : Int) : Int :=
  let remainingCents := wrapInt64 (Int.tmod cents 100)
  wrapInt64 (remainingCents * 10000000)

/-- The guard under which `CentsToBoutiqueMoney` executes `nanos = -nanos`:
`cents < 0` and then `units == 0 && nanos > 0`. -/
def correctionBranchTaken (cents : Int) : Bool :=
  decide (cents < 0) && (centsUnits cents == 0 && decide (centsNanos cents > 0))

/-- `CentsToBoutiqueMoney(cents int64, currencyCode string) *pb.Money` of
`converter/money.go`. -/
def CentsToBoutiqueMoney (cents : Int) (currencyCode : GoString) : Money :=
  let units := centsUnits cents
  let nanos := centsNanos cents
  let nanos := if correctionBranchTaken cents then wrapInt64 (-nanos) else nanos
  { Units := units, Nanos := wrapInt32 nanos, CurrencyCode := currencyCode }

/-- The exact minor-unit value of a Money, computed without any wrap-around:
`Units * 100 + trunc(Nanos / 10_000_000)`. -/
def exactCents (m : Money) : Int := m.Units * 100 + Int.tdiv m.Nanos 10000000

/-- The Nanos field lies in the range the protobuf message documents. -/
def nanosInRange (m : Money) : Prop := -999999999 ≤ m.Nanos ∧ m.Nanos ≤ 999999999

/-- Nanos has the same sign as Units, or one of them is zero: the two are
never of opposite sign. -/
def signConsistent (m : Money) : Prop :=
  (0 ≤ m.Units ∧ 0 ≤ m.Nanos) ∨ (m.Units ≤ 0 ∧ m.Nanos ≤ 0)

instance (m : Money) : Decidable (nanosInRange m) := by unfold nanosInRange; infer_instance

instance (m : Money) : Decidable (signConsistent m) := by unfold signConsistent; infer_instance

end converter

/-! ## Account mapper -/

namespace mapper

/-- `strings.ReplaceAll(s, old, "")` for a one-byte `old`: every occurrence of
the byte is deleted. -/
def ReplaceAll (s : GoString) (old : Byte) : GoString := s.filter (fun b => b != old)

/-- The `cleaned` local of `CardNumberToAccount` and `ValidateCardNumber`:
`strings.ReplaceAll(cardNumber, " ", "")` then `strings.ReplaceAll(cleaned, "-", "")`. -/
def cleaned (cardNumber : GoString) : GoString :=
  ReplaceAll (ReplaceAll cardNumber 0x20) 0x2D

/-- The replacement character U+FFFD, `utf8.RuneError`. -/
def RuneError : Nat := 0xFFFD

/-- One step of Go's `for range` over a string (`utf8.DecodeRuneInString`):
the code point that starts the string and the number of bytes it takes. An
invalid or truncated encoding yields `RuneError` and takes one byte. The bit
masks and shifts of the Go decoder are written with `%` and `*`. -/
def decodeRune (s : GoString) : Nat × Nat :=
  match s with
  | [] => (RuneError, 0)
  | b0 :: rest =>
    let s0 := b0.val
    if s0 < 0x80 then (s0, 1)
    else if s0 < 0xC2 ∨ 0xF4 < s0 then (RuneError, 1)
    else if s0 < 0xE0 then
      match rest with
      | b1 :: _ =>
        if 0x80 ≤ b1.val ∧ b1.val ≤ 0xBF then (s0 % 32 * 64 + b1.val % 64, 2)
        else (RuneError, 1)
      | [] => (RuneError, 1)
    else if s0 < 0xF0 then
      let lo := if s0 = 0xE0 then 0xA0 else 0x80
      let hi := if s0 = 0xED then 0x9F else 0xBF
      match rest with
      | b1 :: b2 :: _ =>
        if lo ≤ b1.val ∧ b1.val ≤ hi ∧ 0x80 ≤ b2.val ∧ b2.val ≤ 0xBF then
          (s0 % 16 * 4096 + b1.val % 64 * 64 + b2.val % 64, 3)
        else (RuneError, 1)
      | _ => (RuneError, 1)
    else
      let lo := if s0 = 0xF0 then 0x90 else 0x80
      let hi := if s0 = 0xF4 then 0x8F else 0xBF
      match rest with
      | b1 :: b2 :: b3 :: _ =>
        if lo ≤ b1.val ∧ b1.val ≤ hi ∧ 0x80 ≤ b2.val ∧ b2.val ≤ 0xBF
            ∧ 0x80 ≤ b3.val ∧ b3.val ≤ 0xBF then
          (s0 % 8 * 262144 + b1.val % 64 * 4096 + b2.val % 64 * 64 + b3.val % 64, 4)
        else (RuneError, 1)
      | _ => (RuneError, 1)

/-- `utf8.RuneCountInString`: the number of `for range` steps over the string.
The fuel bounds the number of steps; every step takes at least one byte, so
the length of the string is enough. -/
def runeCount : Nat → GoString → Nat
  | 0, _ => 0
  | fuel + 1, s =>
    if s.isEmpty then 0 else 1 + runeCount fuel (s.drop (decodeRune s).2)

/-- `fmt.Sprintf("%010s", s)`: the string padded on the left with the byte
`0` to a width of ten code points. -/
def Sprintf010s (s : GoString) : GoString :=
  List.replicate (10 - runeCount s.length s) 0x30 ++ s

/-- `AccountMapper` of `mapper/account.go`. -/
structure AccountMapper where
  DefaultMerchantAccount : GoString
  DefaultRoutingNumber : GoString
deriving DecidableEq, Repr

/-- `NewAccountMapper(merchantAccount, routingNumber string) *AccountMapper`. -/
def NewAccountMapper (merchantAccount routingNumber : GoString) : AccountMapper :=
  let merchantAccount := if merchantAccount = [] then goStr "1111111111" else merchantAccount
  let routingNumber := if routingNumber = [] then goStr "123456789" else routingNumber
  { DefaultMerchantAccount := merchantAccount, DefaultRoutingNumber := routingNumber }

/-- `(m *AccountMapper) CardNumberToAccount(cardNumber string) (accountNum, routingNum string)`. -/
def CardNumberToAccount (m : AccountMapper) (cardNumber : GoString) : GoString × GoString :=
  let cleaned := cleaned cardNumber
  if cleaned.length < 10 then
    (m.DefaultMerchantAccount, m.DefaultRoutingNumber)
  else
    let accountNum :=
      if cleaned.length ≥ 10 then cleaned.drop (cleaned.length - 10)
      else Sprintf010s cleaned
    let routingNum := m.DefaultRoutingNumber
    (accountNum, routingNum)

/-- `(m *AccountMapper) GetMerchantAccount() (accountNum, routingNum string)`. -/
def GetMerchantAccount (m : AccountMapper) : GoString × GoString :=
  (m.DefaultMerchantAccount, m.DefaultRoutingNumber)

/-- The loop `for _, ch := range cleaned` of `ValidateCardNumber`: the error
of the first code point outside `'0'..'9'`, or `nil` at the end of the string.
The fuel bounds the number of iterations; every iteration takes at least one
byte, so with fuel = the length of the string, fuel 0 is reached only when
the whole string has been read. -/
def digitLoop : Nat → GoString → GoError
  | 0, _ => none
  | fuel + 1, s =>
    if s.isEmpty then none
    else
      let ch := (decodeRune s).1
      if ch < 0x30 ∨ ch > 0x39 then some "card number contains non-digit characters"
      else digitLoop fuel (s.drop (decodeRune s).2)

/-- `ValidateCardNumber(cardNumber string) error` of `mapper/account.go`. -/
def ValidateCardNumber (cardNumber : GoString) : GoError :=
  let cleaned := cleaned cardNumber
  if cleaned.length < 13 ∨ cleaned.length > 19 then
    some ("invalid card number length: " ++ toString cleaned.length)
  else
    digitLoop cleaned.length cleaned

/-- The card string with all spaces and dashes removed, as the specification
words it. -/
def withoutSeparators (s : GoString) : GoString :=
  s.filter (fun b => b != 0x20 && b != 0x2D)

/-- The byte is one of the decimal digits `'0'..'9'`. -/
def isDigit (b : Byte) : Prop := 0x30 ≤ b.val ∧ b.val ≤ 0x39

instance (b : Byte) : Decidable (isDigit b) := by unfold isDigit; infer_instance

end mapper

/-! ## Rate limiter -/

namespace middleware

/-- A `time.Time` instant, in nanoseconds on the clock that `time.Now` reads. -/
abbrev Time := Int

/-- The duration `time.Minute`, in nanoseconds. -/
def Minute : Int := 60000000000

/-- `accountLimit` of `middleware/ratelimit.go`; `count` is a Go `int`
(64 bits on the platforms the service is built for). -/
structure accountLimit where
  count : Int
  resetTime : Time
deriving DecidableEq, Repr

/-- The Go map `map[string]*accountLimit`: the entry of each key, if any.
Every entry is allocated by `Allow` for one key only, so the pointers are
never shared and the map is modelled by value. -/
abbrev Table := GoString → Option accountLimit

/-- `RateLimiter` of `middleware/ratelimit.go`: the table and the quota (the
mutex and the ticker carry no data). -/
structure RateLimiter where
  limits : Table
  maxPerMinute : Int

/-- The fields of the limiter are values of their Go types. -/
def RateLimiter.wellTyped (rl : RateLimiter) : Prop :=
  isInt64 rl.maxPerMinute ∧ ∀ k e, rl.limits k = some e → isInt64 e.count

/-- The map assignment `limits[k] = e` (or the update of the entry that
`limits[k]` points to). -/
def Table.store (t : Table) (k : GoString) (e : accountLimit) : Table :=
  fun k' => if k' = k then some e else t k'

/-- `NewRateLimiter(maxPerMinute int) *RateLimiter`: an empty table. -/
def NewRateLimiter (maxPerMinute : Int) : RateLimiter :=
  { limits := fun _ => none, maxPerMinute := maxPerMinute }

/-- `(rl *RateLimiter) Allow(accountNumber string) bool`, run under the lock
at the instant `now` = `time.Now()`: the limiter after the call and the
result. -/
def Allow (rl : RateLimiter) (now : Time) (accountNumber : GoString) : RateLimiter × Bool :=
  match rl.limits accountNumber with
  | none =>
    ({ limits := rl.limits.store accountNumber (accountLimit.mk 1 (now + Minute)),
       maxPerMinute := rl.maxPerMinute }, true)
  | some limit =>
    if now > limit.resetTime then
      ({ limits := rl.limits.store accountNumber (accountLimit.mk 1 (now + Minute)),
         maxPerMinute := rl.maxPerMinute }, true)
    else if limit.count < rl.maxPerMinute then
      ({ limits := rl.limits.store accountNumber
           (accountLimit.mk (wrapInt64 (limit.count + 1)) limit.resetTime),
         maxPerMinute := rl.maxPerMinute }, true)
    else
      (rl, false)

/-- A limiter with quota 3 whose only entry, for account 5112830366, has
used the whole quota of the window that ends at instant 100. -/
def exhaustedLimiter : RateLimiter :=
  { limits := fun k => if k = goStr "5112830366" then some (accountLimit.mk 3 100) else none,
    maxPerMinute := 3 }

end middleware

/-! ## Rate limiter: reads, sweep, singleton, call sequences -/

namespace middleware

/-- `(rl *RateLimiter) GetRemaining(accountNumber string) int`, run under the
read lock at the instant `now` = `time.Now()`: the limiter after the call and
the result. -/
def GetRemaining (rl : RateLimiter) (now : Time) (accountNumber : GoString) :
    RateLimiter × Int :=
  match rl.limits accountNumber with
  | none => (rl, rl.maxPerMinute)
  | some limit =>
    if now > limit.resetTime then (rl, rl.maxPerMinute)
    else
      let remaining := wrapInt64 (rl.maxPerMinute - limit.count)
      if remaining < 0 then (rl, 0) else (rl, remaining)

/-- One iteration of the loop of `(rl *RateLimiter) cleanup()`, for a tick of
the cleanup ticker at the instant `now`: every entry with
`now.After(limit.resetTime.Add(2 * time.Minute))` is deleted from the map. -/
def cleanup (rl : RateLimiter) (now : Time) : RateLimiter :=
  { limits := fun account =>
      match rl.limits account with
      | none => none
      | some limit => if now > limit.resetTime + 2 * Minute then none else some limit,
    maxPerMinute := rl.maxPerMinute }

/-- `InitRateLimiter(maxPerMinute int)`: the value assigned to the package
variable `globalRateLimiter`. -/
def InitRateLimiter (maxPerMinute : Int) : RateLimiter :=
  let maxPerMinute := if maxPerMinute ≤ 0 then 10 else maxPerMinute
  NewRateLimiter maxPerMinute

/-- `GetRateLimiter() *RateLimiter`, given the package variable
`globalRateLimiter` (`none` while it is `nil`): the limiter returned, which
is also the value of the variable after the call. -/
def GetRateLimiter (globalRateLimiter : Option RateLimiter) : RateLimiter :=
  match globalRateLimiter with
  | none => InitRateLimiter 10
  | some rl => rl

/-- A sequence of `Allow(accountNumber)` calls, one at each instant of the
list, in order: the limiter after the last call and the results. -/
def AllowSeq (rl : RateLimiter) (accountNumber : GoString) :
    List Time → RateLimiter × List Bool
  | [] => (rl, [])
  | now :: rest =>
    let step := Allow rl now accountNumber
    let tail := AllowSeq step.1 accountNumber rest
    (tail.1, step.2 :: tail.2)

/-- The limiter states reachable from `NewRateLimiter(maxPerMinute)` through
calls of `Allow` and sweeps of `cleanup`, at arbitrary instants and keys. -/
inductive Reachable (maxPerMinute : Int) : RateLimiter → Prop
  | init : Reachable maxPerMinute (NewRateLimiter maxPerMinute)
  | allow (rl : RateLimiter) (now : Time) (k : GoString) :
      Reachable maxPerMinute rl → Reachable maxPerMinute (Allow rl now k).1
  | sweep (rl : RateLimiter) (now : Time) :
      Reachable maxPerMinute rl → Reachable maxPerMinute (cleanup rl now)

end middleware

/-! ## Ledger client: errors and `CreateTransaction` -/

namespace bank

/-- The gRPC status codes of `google.golang.org/grpc/codes`. -/
inductive Code
  | OK | Canceled | Unknown | InvalidArgument | DeadlineExceeded | NotFound
  | AlreadyExists | PermissionDenied | ResourceExhausted | FailedPrecondition
  | Aborted | OutOfRange | Unimplemented | Internal | Unavailable | DataLoss
  | Unauthenticated
deriving DecidableEq, Repr

/-- A gRPC status error, as built by `status.Error` / `status.Errorf`: the
code and the message. -/
structure Status where
  code : Code
  message : GoString
deriving DecidableEq, Repr

/-- `status.Error(c, msg)`: the error value, which is `nil` for the code OK. -/
def statusError (c : Code) (msg : GoString) : Option Status :=
  if c = Code.OK then none else some { code := c, message := msg }

/-- The verb `%d` of the `fmt` package applied to an integer. -/
def formatInt (n : Int) : GoString := goStr (toString n)

/-- `BankError` of `bank/errors.go`. -/
structure BankError where
  StatusCode : Int
  ErrorCode : GoString
  Message : GoString
deriving DecidableEq, Repr

/-- `NewBankError(statusCode int, errorCode, message string) *BankError`. -/
def NewBankError (statusCode : Int) (errorCode message : GoString) : BankError :=
  { StatusCode := statusCode, ErrorCode := errorCode, Message := message }

/-- `(e *BankError) Error() string`. -/
def BankError.Error (e : BankError) : GoString :=
  goStr "bank API error " ++ formatInt e.StatusCode ++ goStr " (" ++ e.ErrorCode
    ++ goStr "): " ++ e.Message

/-- `(e *BankError) IsInsufficientFunds() bool`. -/
def BankError.IsInsufficientFunds (e : BankError) : Bool :=
  e.StatusCode == 400 &&
    (e.ErrorCode == goStr "insufficient_funds" ||
      e.ErrorCode == goStr "INSUFFICIENT_FUNDS" ||
      e.ErrorCode == goStr "insufficient_balance")

/-- `(e *BankError) IsDuplicateTransaction() bool`. -/
def BankError.IsDuplicateTransaction (e : BankError) : Bool :=
  e.StatusCode == 409 ||
    e.ErrorCode == goStr "duplicate_transaction" ||
    e.ErrorCode == goStr "DUPLICATE_TRANSACTION"

/-- `(e *BankError) IsUnauthorized() bool`. -/
def BankError.IsUnauthorized (e : BankError) : Bool :=
  e.StatusCode == 401

/-- `(e *BankError) ToGRPCError() error`. -/
def BankError.ToGRPCError (e : BankError) : Option Status :=
  if e.IsUnauthorized then
    statusError Code.Unauthenticated (goStr "authentication with bank failed")
  else if e.IsInsufficientFunds then
    statusError Code.FailedPrecondition (goStr "insufficient funds in account")
  else if e.IsDuplicateTransaction then
    statusError Code.AlreadyExists (goStr "duplicate transaction")
  else if e.StatusCode ≥ 400 ∧ e.StatusCode < 500 then
    statusError Code.InvalidArgument e.Message
  else if e.StatusCode ≥ 500 then
    statusError Code.Internal (goStr "bank service error")
  else
    statusError Code.Unknown e.Message

/-- A non-nil Go `error` returned by the ledger client: a `*BankError`, or an
error built by `fmt.Errorf` (transport and parse failures), which carries
only its text. -/
inductive ErrorValue
  | bankError (e : BankError)
  | other (text : GoString)
deriving DecidableEq, Repr

/-- The method `Error()` of an error value (what the verb `%v` prints). -/
def ErrorValue.Error : ErrorValue → GoString
  | ErrorValue.bankError e => e.Error
  | ErrorValue.other text => text

/-- `HandleBankError(err error) error`. -/
def HandleBankError (err : Option ErrorValue) : Option Status :=
  match err with
  | none => none
  | some (ErrorValue.bankError bankErr) => bankErr.ToGRPCError
  | some (ErrorValue.other text) =>
    statusError Code.Internal (goStr "bank communication error: " ++ text)

/-- `TransactionRequest` of `bank/models.go`. -/
structure TransactionRequest where
  FromAccountNum : GoString
  FromRoutingNum : GoString
  ToAccountNum : GoString
  ToRoutingNum : GoString
  Amount : Int
  UUID : GoString
deriving DecidableEq, Repr

/-- `TransactionResponse` of `bank/models.go`; `Timestamp` is an instant in
nanoseconds. -/
structure TransactionResponse where
  TransactionID : Int
  FromAccountNum : GoString
  FromRoutingNum : GoString
  ToAccountNum : GoString
  ToRoutingNum : GoString
  Amount : Int
  Timestamp : Int
deriving DecidableEq, Repr

/-- `ErrorResponse` of `bank/models.go`. -/
structure ErrorResponse where
  Error : GoString
  Message : GoString
  Code : Int
deriving DecidableEq, Repr

/-- The interface `Authenticator`: `GetAuthHeader(accountNumber)` returns the
header and an error. -/
abbrev Authenticator := GoString → GoString × Option GoString

/-- `Client` of `bank/client.go` (the `http.Client` is part of `Env`). -/
structure Client where
  baseURL : GoString
  authenticator : Option Authenticator

/-- The HTTP request that `CreateTransaction` sends: the body is the JSON
document `json.Marshal(req)` of `Payload`. -/
structure HTTPRequest where
  Method : GoString
  URL : GoString
  ContentType : GoString
  Authorization : Option GoString
  Payload : TransactionRequest

/-- What `httpClient.Do` followed by `io.ReadAll(resp.Body)` yields: the
call fails (connection refused, timeout), or reading the body fails, or the
status code and the body bytes of the ledger's response. -/
inductive Transport
  | sendFailed (err : GoString)
  | readFailed (StatusCode : Int) (err : GoString)
  | response (StatusCode : Int) (Body : GoString)
deriving DecidableEq, Repr

/-- The packages `net/http` and `encoding/json` and the network behind them,
as `CreateTransaction` uses them: the error of `http.NewRequest` for a method
and URL (if any), the outcome of sending a request, and `json.Unmarshal` of
a body into a `TransactionResponse` or an `ErrorResponse` (the decoded value,
or the text of the error). -/
structure Env where
  NewRequest : GoString → GoString → Option GoString
  Do : HTTPRequest → Transport
  UnmarshalTransactionResponse : GoString → Except GoString TransactionResponse
  UnmarshalErrorResponse : GoString → Except GoString ErrorResponse

/-- The part of `CreateTransaction` after the response body is read: the
status check, the parse of the error or of the receipt, and the receipt built
from the request for a 201 whose body does not parse. -/
def classifyResponse (env : Env) (now : Int) (req : TransactionRequest)
    (StatusCode : Int) (respBody : GoString) :
    Option TransactionResponse × Option ErrorValue :=
  if StatusCode ≠ 201 ∧ StatusCode ≠ 200 then
    match env.UnmarshalErrorResponse respBody with
    | Except.ok errResp =>
      if errResp.Error ≠ [] then
        (none, some (ErrorValue.bankError
          (NewBankError StatusCode errResp.Error errResp.Message)))
      else
        (none, some (ErrorValue.bankError
          (NewBankError StatusCode (goStr "transaction_failed") respBody)))
    | Except.error _ =>
      (none, some (ErrorValue.bankError
        (NewBankError StatusCode (goStr "transaction_failed") respBody)))
  else
    match env.UnmarshalTransactionResponse respBody with
    | Except.error err =>
      if StatusCode = 201 then
        (some { TransactionID := 0,
                FromAccountNum := req.FromAccountNum,
                FromRoutingNum := req.FromRoutingNum,
                ToAccountNum := req.ToAccountNum,
                ToRoutingNum := req.ToRoutingNum,
                Amount := req.Amount,
                Timestamp := now }, none)
      else
        (none, some (ErrorValue.other (goStr "failed to parse response: " ++ err)))
    | Except.ok txResponse => (some txResponse, none)

/-- `(c *Client) CreateTransaction(req *TransactionRequest)
(*TransactionResponse, error)` of `bank/client.go`; `now` is the instant
`time.Now()` reads for a synthesized receipt. `json.Marshal` cannot fail on a
`TransactionRequest` (strings and an integer), so that error branch is
omitted. -/
def CreateTransaction (env : Env) (c : Client) (now : Int) (req : TransactionRequest) :
    Option TransactionResponse × Option ErrorValue :=
  let url := c.baseURL ++ goStr "/transactions"
  match env.NewRequest (goStr "POST") url with
  | some err => (none, some (ErrorValue.other (goStr "failed to create request: " ++ err)))
  | none =>
    let auth : Except GoString (Option GoString) :=
      match c.authenticator with
      | none => Except.ok none
      | some authenticator =>
        match authenticator req.FromAccountNum with
        | (_, some err) => Except.error err
        | (authHeader, none) => Except.ok (some authHeader)
    match auth with
    | Except.error err =>
      (none, some (ErrorValue.other (goStr "failed to generate auth header: " ++ err)))
    | Except.ok authorization =>
      let httpReq : HTTPRequest :=
        { Method := goStr "POST", URL := url, ContentType := goStr "application/json",
          Authorization := authorization, Payload := req }
      match env.Do httpReq with
      | Transport.sendFailed err =>
        (none, some (ErrorValue.other (goStr "failed to send request: " ++ err)))
      | Transport.readFailed _ err =>
        (none, some (ErrorValue.other (goStr "failed to read response: " ++ err)))
      | Transport.response StatusCode respBody =>
        classifyResponse env now req StatusCode respBody

/-- The outcome of the HTTP exchange of `CreateTransaction` for a request:
`none` when the request could not be built or signed, otherwise what the
network returned. -/
def exchange (env : Env) (c : Client) (req : TransactionRequest) : Option Transport :=
  match env.NewRequest (goStr "POST") (c.baseURL ++ goStr "/transactions") with
  | some _ => none
  | none =>
    match c.authenticator with
    | none =>
      some (env.Do { Method := goStr "POST", URL := c.baseURL ++ goStr "/transactions",
                     ContentType := goStr "application/json", Authorization := none,
                     Payload := req })
    | some authenticator =>
      match authenticator req.FromAccountNum with
      | (_, some _) => none
      | (authHeader, none) =>
        some (env.Do { Method := goStr "POST", URL := c.baseURL ++ goStr "/transactions",
                       ContentType := goStr "application/json",
                       Authorization := some authHeader, Payload := req })

/-- What `CreateTransaction` returns once the HTTP exchange has had the
outcome `t`. -/
def transportResult (env : Env) (now : Int) (req : TransactionRequest) (t : Transport) :
    Option TransactionResponse × Option ErrorValue :=
  match t with
  | Transport.sendFailed err =>
    (none, some (ErrorValue.other (goStr "failed to send request: " ++ err)))
  | Transport.readFailed _ err =>
    (none, some (ErrorValue.other (goStr "failed to read response: " ++ err)))
  | Transport.response StatusCode respBody =>
    classifyResponse env now req StatusCode respBody

end bank

/-! ## Charge orchestrator -/

namespace server

open converter mapper middleware bank

/-- Modelled from the spec: the generated protobuf type `pb.CreditCardInfo`
is not among the sources; of the card info the service reads only the card
identifier string, `CreditCardNumber`. -/
structure CreditCardInfo where
  CreditCardNumber : GoString
deriving DecidableEq, Repr

/-- Modelled from the spec: the generated protobuf type `pb.ChargeRequest` is
not among the sources; a request carries an amount and the card info, each a
pointer that may be nil. -/
structure ChargeRequest where
  Amount : Option Money
  CreditCard : Option CreditCardInfo
deriving DecidableEq, Repr

/-- Modelled from the spec: the generated protobuf type `pb.ChargeResponse` is
not among the sources; a response carries the transaction identifier. -/
structure ChargeResponse where
  TransactionId : GoString
deriving DecidableEq, Repr

/-- `PaymentServer` of `server/server.go`: the fields that `Charge` reads or
writes (the logger and the authenticator, which `Charge` reaches only through
the bank client, are left out). -/
structure PaymentServer where
  accountMapper : AccountMapper
  bankClient : Option Client
  transactionCounter : Int

/-- The mutable state that a call of `Charge` can touch: the server, the
package variable `globalRateLimiter` of the middleware (`none` while it is
nil), and, as a ghost trace, the requests passed to
`bankClient.CreateTransaction` so far, oldest first. -/
structure State where
  server : PaymentServer
  globalRateLimiter : Option RateLimiter
  ledgerCalls : List TransactionRequest

/-- What one call of `Charge` reads from outside the program: the instant at
which `Allow` runs, the identifier returned by `utils.GenerateUUID()`, the
instant read inside `CreateTransaction`, and `time.Now().Unix()` of the
simulated path. -/
structure Effects where
  now : Time
  transactionUUID : GoString
  bankNow : Int
  unixNow : Int

/-- `(s *PaymentServer) Charge(ctx, req) (*pb.ChargeResponse, error)` of
`server/server.go`: the state after the call, the response and the error.
Logging and metrics are write-only collaborators and are not modelled; the
`GetRemaining` call of the rejection branch feeds the log only. -/
def Charge (env : Env) (fx : Effects) (st : State) (req : ChargeRequest) :
    State × Option ChargeResponse × Option Status :=
  match req.Amount with
  | none => (st, none, statusError Code.InvalidArgument (goStr "amount is required"))
  | some amount =>
    match req.CreditCard with
    | none =>
      (st, none, statusError Code.InvalidArgument (goStr "credit card info is required"))
    | some creditCard =>
      match ValidateCardNumber creditCard.CreditCardNumber with
      | some err =>
        (st, none,
          statusError Code.InvalidArgument (goStr "invalid card number: " ++ goStr err))
      | none =>
        match BoutiqueMoneyToCents (some amount) with
        | (_, some err) =>
          (st, none, statusError Code.InvalidArgument (goStr "invalid amount: " ++ goStr err))
        | (cents, none) =>
          let fromPair := CardNumberToAccount st.server.accountMapper creditCard.CreditCardNumber
          let toPair := GetMerchantAccount st.server.accountMapper
          let rateLimiter := GetRateLimiter st.globalRateLimiter
          let allowed := Allow rateLimiter fx.now fromPair.1
          if allowed.2 = false then
            let remaining := GetRemaining allowed.1 fx.now fromPair.1
            (State.mk st.server (some remaining.1) st.ledgerCalls, none,
              statusError Code.ResourceExhausted
                (goStr "too many payment requests, please try again later"))
          else
            let transactionUUID := fx.transactionUUID
            match st.server.bankClient with
            | some bankClient =>
              let bankReq : TransactionRequest :=
                { FromAccountNum := fromPair.1, FromRoutingNum := fromPair.2,
                  ToAccountNum := toPair.1, ToRoutingNum := toPair.2,
                  Amount := cents, UUID := transactionUUID }
              let result := CreateTransaction env bankClient fx.bankNow bankReq
              let st1 := State.mk st.server (some allowed.1) (st.ledgerCalls ++ [bankReq])
              match result.2 with
              | some (ErrorValue.bankError bankErr) => (st1, none, bankErr.ToGRPCError)
              | some err => (st1, none, HandleBankError (some err))
              | none => (st1, some { TransactionId := transactionUUID }, none)
            | none =>
              let counter := wrapInt64 (st.server.transactionCounter + 1)
              let transactionID :=
                goStr "SIM-" ++ formatInt fx.unixNow ++ goStr "-" ++ formatInt counter
              (State.mk (PaymentServer.mk st.server.accountMapper none counter)
                  (some allowed.1) st.ledgerCalls,
                some { TransactionId := transactionID }, none)

end server

/-! ## Charge orchestrator: vocabulary of the claims and example values -/

namespace server

open converter mapper middleware bank

/-- The request passes the validation and conversion steps of `Charge`: the
amount and the card info are present, `ValidateCardNumber` accepts the card
number and `BoutiqueMoneyToCents` returns `cents` without error. -/
def PassesValidation (req : ChargeRequest) (amount : Money) (card : CreditCardInfo)
    (cents : Int) : Prop :=
  req.Amount = some amount ∧ req.CreditCard = some card ∧
  ValidateCardNumber card.CreditCardNumber = none ∧
  BoutiqueMoneyToCents (some amount) = (cents, none)

/-- The key under which `Charge` consults the rate limiter: the account of
`CardNumberToAccount(card number)`. -/
def payerAccount (st : State) (card : CreditCardInfo) : GoString :=
  (CardNumberToAccount st.server.accountMapper card.CreditCardNumber).1

/-- The ledger request the specification describes for a charge: payer
account and routing from `CardNumberToAccount`, payee account and routing
from `GetMerchantAccount`, the amount in cents and the transaction id. -/
def ledgerRequest (st : State) (card : CreditCardInfo) (cents : Int) (uuid : GoString) :
    TransactionRequest :=
  { FromAccountNum := (CardNumberToAccount st.server.accountMapper card.CreditCardNumber).1,
    FromRoutingNum := (CardNumberToAccount st.server.accountMapper card.CreditCardNumber).2,
    ToAccountNum := (GetMerchantAccount st.server.accountMapper).1,
    ToRoutingNum := (GetMerchantAccount st.server.accountMapper).2,
    Amount := cents,
    UUID := uuid }

/-- The body of a ledger response like the one of `TestCreateTransaction`. -/
def receiptBody : GoString :=
  goStr ("\x7b\"transactionId\":12345,\"fromAccountNum\":\"5112830366\"," ++
    "\"fromRoutingNum\":\"\",\"toAccountNum\":\"1111111111\",\"toRoutingNum\":\"\"," ++
    "\"amount\":10000,\"timestamp\":\"0001-01-01T00:00:00Z\"\x7d\n")

/-- The receipt that `receiptBody` encodes. -/
def receipt : TransactionResponse :=
  { TransactionID := 12345, FromAccountNum := goStr "5112830366", FromRoutingNum := [],
    ToAccountNum := goStr "1111111111", ToRoutingNum := [], Amount := 10000, Timestamp := 0 }

/-- An example environment: every request can be built, the network answers
every request with `reply`, `receiptBody` decodes to `receipt` (and, as an
error object, to one with an empty `error` field), and no other body
decodes. -/
def exampleEnv (reply : Transport) : Env :=
  { NewRequest := fun _ _ => none,
    Do := fun _ => reply,
    UnmarshalTransactionResponse := fun body =>
      if body = receiptBody then Except.ok receipt
      else Except.error (goStr "unexpected end of JSON input"),
    UnmarshalErrorResponse := fun body =>
      if body = receiptBody then Except.ok { Error := [], Message := [], Code := 0 }
      else Except.error (goStr "unexpected end of JSON input") }

/-- An example client with the authenticator of the tests. -/
def exampleClient : Client :=
  { baseURL := goStr "http://ledgerwriter:8080",
    authenticator := some (fun _ => (goStr "Bearer mock-jwt-token", none)) }

/-- An example state: default mapper, the given bank client, counter 0, the
rate limiter not yet created, no ledger call so far. -/
def exampleState (bankClient : Option Client) : State :=
  { server := { accountMapper := NewAccountMapper [] [], bankClient := bankClient,
                transactionCounter := 0 },
    globalRateLimiter := none,
    ledgerCalls := [] }

/-- An example request: 100 USD on a valid 16-digit card. -/
def exampleRequest : ChargeRequest :=
  { Amount := some { Units := 100, Nanos := 0, CurrencyCode := goStr "USD" },
    CreditCard := some { CreditCardNumber := goStr "4532015112830366" } }

/-- Example effects of one call. -/
def exampleEffects : Effects :=
  { now := 0, transactionUUID := goStr "123e4567-e89b-42d3-a456-426614174000",
    bankNow := 1, unixNow := 1700000000 }

end server

namespace server

/-- The ledger request of the example charge: 10000 cents from the account
of the example card to the default merchant account. -/
def exampleLedgerRequest : bank.TransactionRequest :=
  ledgerRequest (exampleState (some exampleClient))
    (CreditCardInfo.mk (goStr "4532015112830366")) 10000 exampleEffects.transactionUUID

end server

/-! ## Vocabulary of the claims on call sequences, identifiers and the decision table -/

namespace middleware

/-- One step on the limiter: a call of `Allow` or of `GetRemaining` for a
key, or one sweep of `cleanup`, at an instant. -/
inductive Op
  | allow (now : Time) (k : GoString)
  | getRemaining (now : Time) (k : GoString)
  | sweep (now : Time)

/-- The limiter after one step. -/
def Op.run (rl : RateLimiter) : Op → RateLimiter
  | Op.allow now k => (Allow rl now k).1
  | Op.getRemaining now k => (GetRemaining rl now k).1
  | Op.sweep now => cleanup rl now

/-- The limiter after a sequence of steps, in order. -/
def runOps (rl : RateLimiter) : List Op → RateLimiter
  | [] => rl
  | op :: rest => runOps (op.run rl) rest

/-- A call of one of the two public operations of the limiter. -/
inductive Call
  | allow (now : Time) (k : GoString)
  | getRemaining (now : Time) (k : GoString)

/-- The instant at which a call is made. -/
def Call.time : Call → Time
  | Call.allow now _ => now
  | Call.getRemaining now _ => now

/-- The result of a call: the boolean of `Allow` or the number returned by
`GetRemaining`. -/
inductive Outcome
  | allowed (ok : Bool)
  | remaining (n : Int)
deriving DecidableEq, Repr

/-- A sequence of `Allow` / `GetRemaining` calls, in order: the limiter after
the last call and the results. -/
def runCalls (rl : RateLimiter) : List Call → RateLimiter × List Outcome
  | [] => (rl, [])
  | Call.allow now k :: rest =>
    let step := Allow rl now k
    let tail := runCalls step.1 rest
    (tail.1, Outcome.allowed step.2 :: tail.2)
  | Call.getRemaining now k :: rest =>
    let step := GetRemaining rl now k
    let tail := runCalls step.1 rest
    (tail.1, Outcome.remaining step.2 :: tail.2)

/-- The number of calls that returned true among those whose instant lies in
the closed interval from `a` to `b`; the two lists are the instants of the
calls and their results. -/
def allowedIn (a b : Time) : List Time → List Bool → Nat
  | t :: ts, r :: rs => (if r = true ∧ a ≤ t ∧ t ≤ b then 1 else 0) + allowedIn a b ts rs
  | _, _ => 0

/-- The instants are non-decreasing. -/
def nonDecreasing (ts : List Time) : Prop := List.Pairwise (fun s t => s ≤ t) ts

/-- The key has no entry, or `now` is strictly after the reset time of its
entry: a call of `Allow` at `now` opens a new window. -/
def opensWindow (rl : RateLimiter) (now : Time) (k : GoString) : Prop :=
  rl.limits k = none ∨ ∃ e, rl.limits k = some e ∧ now > e.resetTime

end middleware

namespace bank

/-- The decision table of the specification over (StatusCode, ErrorCode),
first match wins. -/
def decisionTable (status : Int) (errorCode : GoString) : Code :=
  if status = 401 then Code.Unauthenticated
  else if status = 400 ∧
      (errorCode = goStr "insufficient_funds" ∨ errorCode = goStr "INSUFFICIENT_FUNDS" ∨
        errorCode = goStr "insufficient_balance") then Code.FailedPrecondition
  else if status = 409 ∨ errorCode = goStr "duplicate_transaction" ∨
      errorCode = goStr "DUPLICATE_TRANSACTION" then Code.AlreadyExists
  else if 400 ≤ status ∧ status < 500 then Code.InvalidArgument
  else if status ≥ 500 then Code.Internal
  else Code.Unknown

end bank

namespace server

/-- A lower-case hexadecimal digit. -/
def isHexDigit (b : Byte) : Bool :=
  (0x30 ≤ b.val && b.val ≤ 0x39) || (0x61 ≤ b.val && b.val ≤ 0x66)

/-- The byte `-`. -/
def isDash (b : Byte) : Bool := b.val == 0x2D

/-- The string has exactly one byte per item of the pattern, each accepted by
its item. -/
def matchesPattern : List (Byte → Bool) → GoString → Bool
  | [], [] => true
  | p :: ps, b :: bs => p b && matchesPattern ps bs
  | _, _ => false

/-- The textual form of a UUID, as `uuid.UUID.String` of `github.com/google/uuid`
prints it for `utils.GenerateUUID`: groups of 8, 4, 4, 4 and 12 hexadecimal
digits separated by dashes. -/
def uuidPattern : List (Byte → Bool) :=
  List.replicate 8 isHexDigit ++ [isDash] ++ List.replicate 4 isHexDigit ++ [isDash] ++
  List.replicate 4 isHexDigit ++ [isDash] ++ List.replicate 4 isHexDigit ++ [isDash] ++
  List.replicate 12 isHexDigit

/-- The string is a UUID-format identifier. -/
def isUUIDFormat (s : GoString) : Bool := matchesPattern uuidPattern s

end server

namespace middleware

/-- Every entry of the table has a count between 1 and the quota. -/
def countsWithinQuota (rl : RateLimiter) : Prop :=
  ∀ k e, rl.limits k = some e → 1 ≤ e.count ∧ e.count ≤ rl.maxPerMinute

end middleware

namespace server

/-- The body of the ledger response in `TestCreateTransactionInsufficientFunds`. -/
def insufficientFundsBody : GoString :=
  goStr ("\x7b\"error\":\"insufficient_funds\"," ++
    "\"message\":\"Account has insufficient funds\",\"code\":0\x7d\n")

/-- An example environment like `exampleEnv`, in which `insufficientFundsBody`
decodes to the error object it encodes. -/
def exampleErrorEnv (reply : bank.Transport) : bank.Env :=
  { NewRequest := fun _ _ => none,
    Do := fun _ => reply,
    UnmarshalTransactionResponse := fun _ =>
      Except.error (goStr "unexpected end of JSON input"),
    UnmarshalErrorResponse := fun body =>
      if body = insufficientFundsBody then
        Except.ok { Error := goStr "insufficient_funds",
                    Message := goStr "Account has insufficient funds", Code := 0 }
      else Except.error (goStr "invalid character") }

end server

namespace middleware

/-- Two limiters with the same quota whose tables agree, except that where
the first has an entry whose reset time is before `t0` the second may have
none: the relation between a limiter and the same limiter after a sweep at
`t0`. -/
def agreeUpToStale (t0 : Time) (rl1 rl2 : RateLimiter) : Prop :=
  rl1.maxPerMinute = rl2.maxPerMinute ∧
  ∀ k, rl1.limits k = rl2.limits k ∨
    (rl2.limits k = none ∧ ∃ e, rl1.limits k = some e ∧ e.resetTime < t0)

/-- A bound on the number of further calls of `Allow` for a key that can
return true at instants between `a` and `b`, given the entry of the key
(quota `q`): inside the current window only the rest of the quota; if the
window ends inside the interval, the rest of the quota and one more quota;
if the key has no entry or its window ended before the interval, one call
short of two quotas. -/
def burstBound (q : Int) (a b : Time) : Option accountLimit → Int
  | none => 2 * q - 1
  | some e =>
    if b ≤ e.resetTime then q - e.count
    else if a ≤ e.resetTime then 2 * q - e.count
    else 2 * q - 1

end middleware

/-! ## Arithmetic helpers -/

theorem wrapInt64_of_isInt64 {x : Int} (h : isInt64 x) : wrapInt64 x = x := by
  unfold isInt64 at h
  unfold wrapInt64
  omega

theorem wrapInt32_of_isInt32 {x : Int} (h : isInt32 x) : wrapInt32 x = x := by
  unfold isInt32 at h
  unfold wrapInt32
  omega

theorem wrapInt64_add_wrap (a b : Int) :
    wrapInt64 (wrapInt64 a + b) = wrapInt64 (a + b) := by
  unfold wrapInt64
  omega

/-- Truncated division by a positive literal, in terms of floor division. -/
theorem tdiv_cases (x d : Int) (hd : 0 < d) :
    (0 ≤ x ∧ Int.tdiv x d = x / d) ∨ (x < 0 ∧ Int.tdiv x d = -((-x) / d)) := by
  rcases le_or_lt 0 x with h | h
  · exact Or.inl ⟨h, Int.tdiv_eq_ediv h hd.le⟩
  · refine Or.inr ⟨h, ?_⟩
    have h1 : Int.tdiv (-(-x)) d = -(Int.tdiv (-x) d) := Int.neg_tdiv (-x) d
    rw [neg_neg] at h1
    rw [h1, Int.tdiv_eq_ediv (by omega) hd.le]

theorem tmod_eq_sub (x d : Int) : Int.tmod x d = x - d * Int.tdiv x d := by
  have := Int.tdiv_add_tmod x d
  omega

/-! ## Money converter: helper lemmas -/

namespace converter

theorem centsUnits_eq {cents : Int} (h : isInt64 cents) :
    centsUnits cents = Int.tdiv cents 100 := by
  unfold centsUnits
  apply wrapInt64_of_isInt64
  unfold isInt64 at *
  rcases tdiv_cases cents 100 (by norm_num) with ⟨h0, e⟩ | ⟨h0, e⟩ <;> rw [e] <;> omega

theorem centsNanos_eq (cents : Int) :
    centsNanos cents = Int.tmod cents 100 * 10000000 := by
  have hm := tmod_eq_sub cents 100
  unfold centsNanos
  simp only
  rcases tdiv_cases cents 100 (by norm_num) with ⟨h0, e⟩ | ⟨h0, e⟩
  · rw [e] at hm
    rw [wrapInt64_of_isInt64 (x := Int.tmod cents 100) (by unfold isInt64; omega)]
    exact wrapInt64_of_isInt64 (by unfold isInt64; omega)
  · rw [e] at hm
    rw [wrapInt64_of_isInt64 (x := Int.tmod cents 100) (by unfold isInt64; omega)]
    exact wrapInt64_of_isInt64 (by unfold isInt64; omega)

/-- The remainder of a truncated division by 100 has the sign of the dividend
and magnitude at most 99. -/
theorem tmod_100_bounds (cents : Int) :
    (0 ≤ cents → 0 ≤ Int.tmod cents 100 ∧ Int.tmod cents 100 ≤ 99) ∧
    (cents < 0 → -99 ≤ Int.tmod cents 100 ∧ Int.tmod cents 100 ≤ 0) := by
  have hm := tmod_eq_sub cents 100
  rcases tdiv_cases cents 100 (by norm_num) with ⟨h0, e⟩ | ⟨h0, e⟩ <;> rw [e] at hm <;>
    constructor <;> intro _ <;> omega

theorem correctionBranchTaken_eq_false (cents : Int) :
    correctionBranchTaken cents = false := by
  unfold correctionBranchTaken
  rcases le_or_lt 0 cents with h | h
  · simp [not_lt.mpr h]
  · have hb := (tmod_100_bounds cents).2 h
    have hn : ¬ centsNanos cents > 0 := by
      rw [centsNanos_eq]
      omega
    simp [hn]

/-- Closed form of `CentsToBoutiqueMoney` on the `int64` range. -/
theorem CentsToBoutiqueMoney_closed {cents : Int} (h : isInt64 cents) (cur : GoString) :
    CentsToBoutiqueMoney cents cur =
      { Units := Int.tdiv cents 100, Nanos := Int.tmod cents 100 * 10000000,
        CurrencyCode := cur } := by
  unfold CentsToBoutiqueMoney
  simp only [correctionBranchTaken_eq_false, centsUnits_eq h, centsNanos_eq]
  have hb := tmod_100_bounds cents
  have h32 : wrapInt32 (Int.tmod cents 100 * 10000000) = Int.tmod cents 100 * 10000000 := by
    apply wrapInt32_of_isInt32
    unfold isInt32
    rcases le_or_lt 0 cents with h0 | h0
    · have := hb.1 h0
      omega
    · have := hb.2 h0
      omega
  simp [h32]

/-- Without wrap-around `BoutiqueMoneyToCents` returns the exact value. -/
theorem BoutiqueMoneyToCents_exact (m : Money) (hN : isInt32 m.Nanos)
    (hfit : isInt64 (exactCents m)) :
    BoutiqueMoneyToCents (some m) = (exactCents m, none) := by
  have hq : wrapInt32 (Int.tdiv m.Nanos 10000000) = Int.tdiv m.Nanos 10000000 := by
    apply wrapInt32_of_isInt32
    unfold isInt32 at *
    rcases tdiv_cases m.Nanos 10000000 (by norm_num) with ⟨h0, e⟩ | ⟨h0, e⟩ <;> rw [e] <;> omega
  have htot : wrapInt64 (wrapInt64 (m.Units * 100) + Int.tdiv m.Nanos 10000000)
      = exactCents m := by
    rw [wrapInt64_add_wrap]
    exact wrapInt64_of_isInt64 hfit
  have hguard : ¬ (exactCents m < 0 ∧ m.Units ≥ 0 ∧ m.Nanos ≥ 0) := by
    rintro ⟨h1, h2, h3⟩
    have : 0 ≤ Int.tdiv m.Nanos 10000000 := Int.tdiv_nonneg h3 (by norm_num)
    unfold exactCents at h1
    omega
  unfold BoutiqueMoneyToCents
  simp only [hq, htot, if_neg hguard]

end converter

/-! ## Money converter: the claims -/

namespace converter

/-- C1 (as stated, refuted): the Money with Units = 9223372036854775807 and
Nanos = 0 meets every premise of the round trip (Nanos in range, a multiple
of 10,000,000, sign consistent), yet `BoutiqueMoneyToCents` does not succeed
on it: the overflow guard returns an error, so no cents value round-trips. -/
theorem C1_round_trip_fails_on_overflow :
    (Money.mk 9223372036854775807 0 (goStr "USD")).wellTyped ∧
    nanosInRange (Money.mk 9223372036854775807 0 (goStr "USD")) ∧
    (10000000 : Int) ∣ (Money.mk 9223372036854775807 0 (goStr "USD")).Nanos ∧
    signConsistent (Money.mk 9223372036854775807 0 (goStr "USD")) ∧
    BoutiqueMoneyToCents (some (Money.mk 9223372036854775807 0 (goStr "USD")))
      = (0, some "money conversion overflow") ∧
    ¬ ∃ c : Int,
      BoutiqueMoneyToCents (some (Money.mk 9223372036854775807 0 (goStr "USD"))) = (c, none) ∧
      CentsToBoutiqueMoney c (goStr "USD") = Money.mk 9223372036854775807 0 (goStr "USD") := by
  have hev : BoutiqueMoneyToCents (some (Money.mk 9223372036854775807 0 (goStr "USD")))
      = (0, some "money conversion overflow") := by decide
  refine ⟨by decide, by decide, by decide, by decide, hev, ?_⟩
  rintro ⟨c, hc, _⟩
  rw [hev] at hc
  exact absurd (congrArg Prod.snd hc) (by simp)

/-- C1 (amended): round trip Money -> cents -> Money. For every Money whose
Nanos lies in [-999,999,999, 999,999,999], is a multiple of 10,000,000 and is
not of opposite sign to Units, and whose exact minor-unit value
Units*100 + Nanos/10,000,000 fits in a signed 64-bit integer,
`BoutiqueMoneyToCents` succeeds with some c and `CentsToBoutiqueMoney` of c
and the currency code gives back the same Units, Nanos and CurrencyCode. -/
theorem C1_round_trip_money_cents_money (m : Money)
    (hrange : nanosInRange m) (hmul : (10000000 : Int) ∣ m.Nanos)
    (hsign : signConsistent m) (hfit : isInt64 (exactCents m)) :
    ∃ c : Int, BoutiqueMoneyToCents (some m) = (c, none) ∧
      CentsToBoutiqueMoney c m.CurrencyCode = m := by
  refine ⟨exactCents m, ?_, ?_⟩
  · apply BoutiqueMoneyToCents_exact m _ hfit
    unfold nanosInRange at hrange
    unfold isInt32
    omega
  · rw [CentsToBoutiqueMoney_closed hfit]
    obtain ⟨k, hk⟩ := hmul
    have hq : Int.tdiv m.Nanos 10000000 = k := by
      rw [hk]
      exact Int.mul_tdiv_cancel_left k (by norm_num)
    have hm := tmod_eq_sub (exactCents m) 100
    unfold nanosInRange at hrange
    unfold signConsistent at hsign
    have hU : Int.tdiv (exactCents m) 100 = m.Units := by
      unfold exactCents at *
      rw [hq]
      rcases tdiv_cases (m.Units * 100 + k) 100 (by norm_num) with ⟨h0, e⟩ | ⟨h0, e⟩ <;>
        rw [e] <;> omega
    have hN : Int.tmod (exactCents m) 100 * 10000000 = m.Nanos := by
      rw [hm, hU]
      unfold exactCents
      rw [hq]
      omega
    rw [hU, hN]

/-- Witness of C1 (amended) at Units = -5, Nanos = -250,000,000. -/
theorem C1_round_trip_money_cents_money_witness :
    ∃ c : Int,
      BoutiqueMoneyToCents (some (Money.mk (-5) (-250000000) (goStr "USD"))) = (c, none) ∧
      CentsToBoutiqueMoney c (goStr "USD") = Money.mk (-5) (-250000000) (goStr "USD") :=
  C1_round_trip_money_cents_money (Money.mk (-5) (-250000000) (goStr "USD"))
    (by decide) (by decide) (by decide) (by decide)

/-- C2: for every Money (with fields of their Go types) whose exact value
Units*100 + trunc(Nanos/10,000,000) fits in a signed 64-bit integer,
`BoutiqueMoneyToCents` returns exactly that value and no error. -/
theorem C2_to_cents_exact (m : Money) (hty : m.wellTyped)
    (hfit : isInt64 (m.Units * 100 + Int.tdiv m.Nanos 10000000)) :
    BoutiqueMoneyToCents (some m) = (m.Units * 100 + Int.tdiv m.Nanos 10000000, none) :=
  BoutiqueMoneyToCents_exact m hty.2 hfit

/-- Witness of C2 at the five amounts of the specification and the tests. -/
theorem C2_to_cents_exact_witness :
    BoutiqueMoneyToCents (some (Money.mk 10 0 (goStr "USD"))) = (1000, none) ∧
    BoutiqueMoneyToCents (some (Money.mk 15 500000000 (goStr "USD"))) = (1550, none) ∧
    BoutiqueMoneyToCents (some (Money.mk 0 990000000 (goStr "USD"))) = (99, none) ∧
    BoutiqueMoneyToCents (some (Money.mk (-5) (-250000000) (goStr "USD"))) = (-525, none) ∧
    BoutiqueMoneyToCents (some (Money.mk 999999 990000000 (goStr "USD"))) = (99999999, none) :=
  ⟨C2_to_cents_exact (Money.mk 10 0 (goStr "USD")) (by decide) (by decide),
   C2_to_cents_exact (Money.mk 15 500000000 (goStr "USD")) (by decide) (by decide),
   C2_to_cents_exact (Money.mk 0 990000000 (goStr "USD")) (by decide) (by decide),
   C2_to_cents_exact (Money.mk (-5) (-250000000) (goStr "USD")) (by decide) (by decide),
   C2_to_cents_exact (Money.mk 999999 990000000 (goStr "USD")) (by decide) (by decide)⟩

/-- C3 (the code at the failing input): the Money with
Units = 184467440737095517 and Nanos = 0 is well typed and non-negative, its
exact minor-unit value 18446744073709551700 does not fit in a signed 64-bit
integer, and `BoutiqueMoneyToCents` returns the wrapped value 84 with no
error: the sign check misses a wrap-around that lands on a non-negative
number. -/
theorem C3_silent_wraparound :
    (Money.mk 184467440737095517 0 (goStr "USD")).wellTyped ∧
    (Money.mk 184467440737095517 0 (goStr "USD")).Units ≥ 0 ∧
    (Money.mk 184467440737095517 0 (goStr "USD")).Nanos ≥ 0 ∧
    exactCents (Money.mk 184467440737095517 0 (goStr "USD")) = 18446744073709551700 ∧
    ¬ isInt64 (exactCents (Money.mk 184467440737095517 0 (goStr "USD"))) ∧
    BoutiqueMoneyToCents (some (Money.mk 184467440737095517 0 (goStr "USD"))) = (84, none) := by
  refine ⟨by decide, by decide, by decide, by decide, by decide, by decide⟩

/-- C4: `BoutiqueMoneyToCents` applied to an absent (nil) Money returns the
value 0 together with an error, never a successful result. -/
theorem C4_nil_money_is_error :
    BoutiqueMoneyToCents none = (0, some "money cannot be nil") ∧
    (BoutiqueMoneyToCents none).1 = 0 ∧ (BoutiqueMoneyToCents none).2 ≠ none := by
  refine ⟨rfl, rfl, ?_⟩
  simp [BoutiqueMoneyToCents]

/-- C5: for every int64 cents and currency code, `CentsToBoutiqueMoney`
returns Units = cents / 100 truncated toward zero,
Nanos = (cents - Units*100) * 10,000,000 and CurrencyCode = the code given. -/
theorem C5_from_cents_closed_form (cents : Int) (cur : GoString) (h : isInt64 cents) :
    (CentsToBoutiqueMoney cents cur).Units = Int.tdiv cents 100 ∧
    (CentsToBoutiqueMoney cents cur).Nanos
      = (cents - (CentsToBoutiqueMoney cents cur).Units * 100) * 10000000 ∧
    (CentsToBoutiqueMoney cents cur).CurrencyCode = cur := by
  rw [CentsToBoutiqueMoney_closed h]
  refine ⟨rfl, ?_, rfl⟩
  simp only
  rw [tmod_eq_sub]
  ring

/-- Witness of C5 at cents = -525, with the other amounts of the tests. -/
theorem C5_from_cents_closed_form_witness :
    ((CentsToBoutiqueMoney (-525) (goStr "USD")).Units = Int.tdiv (-525) 100 ∧
     (CentsToBoutiqueMoney (-525) (goStr "USD")).Nanos
       = (-525 - (CentsToBoutiqueMoney (-525) (goStr "USD")).Units * 100) * 10000000 ∧
     (CentsToBoutiqueMoney (-525) (goStr "USD")).CurrencyCode = goStr "USD") ∧
    CentsToBoutiqueMoney (-525) (goStr "USD") = Money.mk (-5) (-250000000) (goStr "USD") ∧
    CentsToBoutiqueMoney 1550 (goStr "USD") = Money.mk 15 500000000 (goStr "USD") ∧
    CentsToBoutiqueMoney 99 (goStr "USD") = Money.mk 0 990000000 (goStr "USD") ∧
    CentsToBoutiqueMoney 1 (goStr "USD") = Money.mk 0 10000000 (goStr "USD") :=
  ⟨C5_from_cents_closed_form (-525) (goStr "USD") (by decide),
   by decide, by decide, by decide, by decide⟩

/-- C6: sign invariant of `CentsToBoutiqueMoney`. For every int64 cents the
returned Money has |Nanos| <= 990,000,000; Units and Nanos are both >= 0
when cents >= 0 and both <= 0 when cents < 0; and the correction branch
`units == 0 && nanos > 0` is not taken. -/
theorem C6_from_cents_sign_invariant (cents : Int) (cur : GoString) (h : isInt64 cents) :
    |(CentsToBoutiqueMoney cents cur).Nanos| ≤ 990000000 ∧
    (0 ≤ cents →
      0 ≤ (CentsToBoutiqueMoney cents cur).Units ∧ 0 ≤ (CentsToBoutiqueMoney cents cur).Nanos) ∧
    (cents < 0 →
      (CentsToBoutiqueMoney cents cur).Units ≤ 0 ∧ (CentsToBoutiqueMoney cents cur).Nanos ≤ 0) ∧
    correctionBranchTaken cents = false := by
  rw [CentsToBoutiqueMoney_closed h]
  have hb := tmod_100_bounds cents
  simp only
  refine ⟨?_, ?_, ?_, correctionBranchTaken_eq_false cents⟩
  · rw [abs_le]
    rcases le_or_lt 0 cents with h0 | h0
    · have := hb.1 h0
      omega
    · have := hb.2 h0
      omega
  · intro h0
    have := hb.1 h0
    rcases tdiv_cases cents 100 (by norm_num) with ⟨_, e⟩ | ⟨_, e⟩ <;> rw [e] <;> omega
  · intro h0
    have := hb.2 h0
    rcases tdiv_cases cents 100 (by norm_num) with ⟨_, e⟩ | ⟨_, e⟩ <;> rw [e] <;> omega

/-- Witness of C6 at the minimum int64 and at cents = -50 (where Units is 0). -/
theorem C6_from_cents_sign_invariant_witness :
    (|(CentsToBoutiqueMoney (-9223372036854775808) []).Nanos| ≤ 990000000 ∧
     (0 ≤ (-9223372036854775808 : Int) →
       0 ≤ (CentsToBoutiqueMoney (-9223372036854775808) []).Units ∧
       0 ≤ (CentsToBoutiqueMoney (-9223372036854775808) []).Nanos) ∧
     ((-9223372036854775808 : Int) < 0 →
       (CentsToBoutiqueMoney (-9223372036854775808) []).Units ≤ 0 ∧
       (CentsToBoutiqueMoney (-9223372036854775808) []).Nanos ≤ 0) ∧
     correctionBranchTaken (-9223372036854775808) = false) ∧
    CentsToBoutiqueMoney (-50) [] = Money.mk 0 (-500000000) [] :=
  ⟨C6_from_cents_sign_invariant (-9223372036854775808) [] (by decide), by decide⟩

end converter

/-! ## Account mapper: helper lemmas -/

namespace mapper

/-- The two `ReplaceAll` passes of the source delete exactly the spaces and
the dashes. -/
theorem cleaned_eq_withoutSeparators (s : GoString) : cleaned s = withoutSeparators s := by
  unfold cleaned ReplaceAll withoutSeparators
  rw [List.filter_filter]
  congr 1
  funext b
  exact Bool.and_comm _ _

/-- A byte that is not ASCII starts a code point that is not ASCII either
(a decoded multi-byte sequence, or `RuneError`). -/
theorem decodeRune_ge_of_nonascii (b : Byte) (rest : GoString) (h : 0x80 ≤ b.val) :
    0x80 ≤ (decodeRune (b :: rest)).1 := by
  unfold decodeRune RuneError
  simp only
  split_ifs <;> (try split) <;> (try split_ifs) <;> (try simp only) <;> omega

theorem decodeRune_ascii (b : Byte) (rest : GoString) (h : b.val < 0x80) :
    decodeRune (b :: rest) = (b.val, 1) := by
  unfold decodeRune
  simp [h]

/-- With enough fuel the loop of `ValidateCardNumber` ends without an error
exactly when every byte of the string is a decimal digit. -/
theorem digitLoop_eq_none_iff (fuel : Nat) (s : GoString) (h : s.length ≤ fuel) :
    digitLoop fuel s = none ↔ ∀ b ∈ s, isDigit b := by
  induction fuel generalizing s with
  | zero =>
    have hs : s = [] := List.length_eq_zero.mp (Nat.le_zero.mp h)
    subst hs
    simp [digitLoop]
  | succ n ih =>
    cases s with
    | nil => simp [digitLoop]
    | cons b rest =>
      have hlen : rest.length ≤ n := by
        simp only [List.length_cons] at h
        omega
      rcases Nat.lt_or_ge b.val 0x80 with hb | hb
      · have hd := decodeRune_ascii b rest hb
        unfold digitLoop
        simp only [List.isEmpty_cons, Bool.false_eq_true, if_false, hd, List.drop_succ_cons,
          List.drop_zero]
        by_cases hdig : b.val < 0x30 ∨ b.val > 0x39
        · rw [if_pos hdig]
          constructor
          · intro hc
            exact absurd hc (by simp)
          · intro hall
            have := hall b (List.mem_cons_self b rest)
            unfold isDigit at this
            omega
        · rw [if_neg hdig, ih rest hlen]
          constructor
          · intro hall c hc
            rcases List.mem_cons.mp hc with rfl | hc
            · unfold isDigit
              omega
            · exact hall c hc
          · intro hall c hc
            exact hall c (List.mem_cons_of_mem b hc)
      · have hr := decodeRune_ge_of_nonascii b rest hb
        unfold digitLoop
        simp only [List.isEmpty_cons, Bool.false_eq_true, if_false]
        have hdig : (decodeRune (b :: rest)).1 < 0x30 ∨ (decodeRune (b :: rest)).1 > 0x39 := by
          omega
        rw [if_pos hdig]
        constructor
        · intro hc
          exact absurd hc (by simp)
        · intro hall
          have := hall b (List.mem_cons_self b rest)
          unfold isDigit at this
          omega

/-- Closed form of `CardNumberToAccount`: the zero-padding branch is dead. -/
theorem CardNumberToAccount_closed (m : AccountMapper) (s : GoString) :
    CardNumberToAccount m s =
      if (withoutSeparators s).length < 10 then
        (m.DefaultMerchantAccount, m.DefaultRoutingNumber)
      else
        ((withoutSeparators s).drop ((withoutSeparators s).length - 10),
          m.DefaultRoutingNumber) := by
  unfold CardNumberToAccount
  simp only [cleaned_eq_withoutSeparators]
  by_cases h : (withoutSeparators s).length < 10
  · simp [h]
  · have h2 : (withoutSeparators s).length ≥ 10 := by omega
    simp [h, h2]

end mapper

/-! ## Account mapper: the claims -/

namespace mapper

/-- C7: for every mapper and card string s, with c = s without its spaces and
dashes (a character of a Go string being one of its bytes, as `len` and
slicing count them): if c has fewer than 10 characters `CardNumberToAccount`
returns (DefaultMerchantAccount, DefaultRoutingNumber); otherwise the account
returned is the last 10 characters of c (a suffix of c of length 10). In both
cases the routing number is DefaultRoutingNumber. -/
theorem C7_card_number_to_account (m : AccountMapper) (s : GoString) :
    ((withoutSeparators s).length < 10 →
      CardNumberToAccount m s = (m.DefaultMerchantAccount, m.DefaultRoutingNumber)) ∧
    (10 ≤ (withoutSeparators s).length →
      (CardNumberToAccount m s).1.length = 10 ∧
      (∃ front : GoString, withoutSeparators s = front ++ (CardNumberToAccount m s).1) ∧
      CardNumberToAccount m s =
        ((withoutSeparators s).drop ((withoutSeparators s).length - 10),
          m.DefaultRoutingNumber)) ∧
    (CardNumberToAccount m s).2 = m.DefaultRoutingNumber := by
  rw [CardNumberToAccount_closed]
  refine ⟨?_, ?_, ?_⟩
  · intro h
    rw [if_pos h]
  · intro h
    rw [if_neg (by omega)]
    refine ⟨?_, ⟨(withoutSeparators s).take ((withoutSeparators s).length - 10), ?_⟩, rfl⟩
    · simp only [List.length_drop]
      omega
    · exact (List.take_append_drop _ _).symm
  · split_ifs <;> rfl

/-- Witness of C7: a 16-digit card with dashes (last 10 digits) and a 9-digit
card (fallback to the merchant account), for the mapper of the tests. -/
theorem C7_card_number_to_account_witness :
    CardNumberToAccount (NewAccountMapper (goStr "MERCHANT-001") (goStr "987654321"))
        (goStr "4532-0151-1283-0366")
      = (goStr "5112830366", goStr "987654321") ∧
    CardNumberToAccount (NewAccountMapper (goStr "MERCHANT-001") (goStr "987654321"))
        (goStr "123456789")
      = (goStr "MERCHANT-001", goStr "987654321") :=
  ⟨((C7_card_number_to_account
        (NewAccountMapper (goStr "MERCHANT-001") (goStr "987654321"))
        (goStr "4532-0151-1283-0366")).2.1 (by decide)).2.2,
   (C7_card_number_to_account
        (NewAccountMapper (goStr "MERCHANT-001") (goStr "987654321"))
        (goStr "123456789")).1 (by decide)⟩

/-- C8: `CardNumberToAccount` is insensitive to separators: for every mapper
and any two card strings that are equal after removing all spaces and dashes,
it returns the same (account, routing) pair. -/
theorem C8_separator_insensitive (m : AccountMapper) (s1 s2 : GoString)
    (h : withoutSeparators s1 = withoutSeparators s2) :
    CardNumberToAccount m s1 = CardNumberToAccount m s2 := by
  rw [CardNumberToAccount_closed, CardNumberToAccount_closed, h]

/-- Witness of C8: the dashed, the spaced and the plain spelling of
4532015112830366 all yield the account 5112830366. -/
theorem C8_separator_insensitive_witness :
    CardNumberToAccount (NewAccountMapper [] []) (goStr "4532-0151-1283-0366")
      = CardNumberToAccount (NewAccountMapper [] []) (goStr "4532 0151 1283 0366") ∧
    CardNumberToAccount (NewAccountMapper [] []) (goStr "4532 0151 1283 0366")
      = CardNumberToAccount (NewAccountMapper [] []) (goStr "4532015112830366") ∧
    (CardNumberToAccount (NewAccountMapper [] []) (goStr "4532015112830366")).1
      = goStr "5112830366" :=
  ⟨C8_separator_insensitive (NewAccountMapper [] []) (goStr "4532-0151-1283-0366")
      (goStr "4532 0151 1283 0366") (by decide),
   C8_separator_insensitive (NewAccountMapper [] []) (goStr "4532 0151 1283 0366")
      (goStr "4532015112830366") (by decide),
   by decide⟩

/-- C9: `ValidateCardNumber` returns nil if and only if the card string,
after removing all spaces and dashes, is between 13 and 19 characters long
and consists only of the decimal digits; every other string is rejected with
an error. -/
theorem C9_validate_card_number_iff (s : GoString) :
    ValidateCardNumber s = none ↔
      (13 ≤ (withoutSeparators s).length ∧ (withoutSeparators s).length ≤ 19 ∧
        ∀ b ∈ withoutSeparators s, isDigit b) := by
  unfold ValidateCardNumber
  simp only [cleaned_eq_withoutSeparators]
  by_cases hlen : (withoutSeparators s).length < 13 ∨ (withoutSeparators s).length > 19
  · rw [if_pos hlen]
    constructor
    · intro hc
      exact absurd hc (by simp)
    · rintro ⟨h1, h2, _⟩
      omega
  · rw [if_neg hlen, digitLoop_eq_none_iff _ _ le_rfl]
    constructor
    · intro hall
      exact ⟨by omega, by omega, hall⟩
    · rintro ⟨_, _, hall⟩
      exact hall

end mapper

/-! ## Rate limiter: lemmas and claims -/

namespace middleware

theorem Table.store_same (t : Table) (k : GoString) (e : accountLimit) :
    t.store k e k = some e := by
  simp [Table.store]

theorem Table.store_other (t : Table) (k k' : GoString) (e : accountLimit) (h : k' ≠ k) :
    t.store k e k' = t k' := by
  simp [Table.store, h]

/-- Under the guard `count < maxPerMinute` the increment does not overflow. -/
theorem count_succ_no_wrap {count q : Int} (hc : isInt64 count) (hq : isInt64 q)
    (hlt : count < q) : wrapInt64 (count + 1) = count + 1 := by
  apply wrapInt64_of_isInt64
  unfold isInt64 at *
  omega

/-- `Allow` never changes the quota. -/
theorem Allow_maxPerMinute (rl : RateLimiter) (now : Time) (k : GoString) :
    (Allow rl now k).1.maxPerMinute = rl.maxPerMinute := by
  unfold Allow
  split
  · rfl
  · split_ifs <;> rfl

/-- `Allow` leaves the entries of all other keys as they are. -/
theorem Allow_frame (rl : RateLimiter) (now : Time) (k k' : GoString) (h : k' ≠ k) :
    (Allow rl now k).1.limits k' = rl.limits k' := by
  unfold Allow
  split
  · exact Table.store_other _ _ _ _ h
  · split_ifs
    · exact Table.store_other _ _ _ _ h
    · exact Table.store_other _ _ _ _ h
    · rfl

/-- C10: `Allow` is exactly the fixed-window transition. For every limiter
state (table and quota Q, with fields of their Go types), key k and time now:
(1) if k has no entry, the table gains k -> (count 1, reset now+60s) and the
result is true; (2) if k has an entry and now is strictly after its reset
time, the entry becomes (1, now+60s) and the result is true; (3) otherwise if
count < Q the count is incremented, the reset time is kept and the result is
true; (4) otherwise the result is false and the table is unchanged. In every
case the entries of all keys other than k are unchanged. -/
theorem C10_allow_fixed_window (rl : RateLimiter) (k : GoString) (now : Time)
    (hty : rl.wellTyped) :
    (rl.limits k = none →
      (Allow rl now k).2 = true ∧
      (Allow rl now k).1.limits k = some { count := 1, resetTime := now + 60000000000 }) ∧
    (∀ e, rl.limits k = some e → now > e.resetTime →
      (Allow rl now k).2 = true ∧
      (Allow rl now k).1.limits k = some { count := 1, resetTime := now + 60000000000 }) ∧
    (∀ e, rl.limits k = some e → ¬ now > e.resetTime → e.count < rl.maxPerMinute →
      (Allow rl now k).2 = true ∧
      (Allow rl now k).1.limits k = some { count := e.count + 1, resetTime := e.resetTime }) ∧
    (∀ e, rl.limits k = some e → ¬ now > e.resetTime → ¬ e.count < rl.maxPerMinute →
      (Allow rl now k).2 = false ∧ (Allow rl now k).1.limits = rl.limits) ∧
    (∀ k', k' ≠ k → (Allow rl now k).1.limits k' = rl.limits k') := by
  refine ⟨?_, ?_, ?_, ?_, fun k' h => Allow_frame rl now k k' h⟩
  · intro h
    have hA : Allow rl now k
        = (RateLimiter.mk (rl.limits.store k (accountLimit.mk 1 (now + Minute)))
            rl.maxPerMinute, true) := by
      unfold Allow
      rw [h]
    rw [hA]
    exact ⟨rfl, Table.store_same _ _ _⟩
  · intro e h hexp
    have hA : Allow rl now k
        = (RateLimiter.mk (rl.limits.store k (accountLimit.mk 1 (now + Minute)))
            rl.maxPerMinute, true) := by
      unfold Allow
      rw [h]
      simp only [if_pos hexp]
    rw [hA]
    exact ⟨rfl, Table.store_same _ _ _⟩
  · intro e h hexp hlt
    have hA : Allow rl now k
        = (RateLimiter.mk (rl.limits.store k (accountLimit.mk (e.count + 1) e.resetTime))
            rl.maxPerMinute, true) := by
      unfold Allow
      rw [h]
      simp only [if_neg hexp, if_pos hlt, count_succ_no_wrap (hty.2 k e h) hty.1 hlt]
    rw [hA]
    exact ⟨rfl, Table.store_same _ _ _⟩
  · intro e h hexp hlt
    have hA : Allow rl now k = (rl, false) := by
      unfold Allow
      rw [h]
      simp only [if_neg hexp, if_neg hlt]
    rw [hA]
    exact ⟨rfl, rfl⟩

theorem exhaustedLimiter_wellTyped : exhaustedLimiter.wellTyped := by
  refine ⟨by decide, ?_⟩
  intro k e h
  unfold exhaustedLimiter at h
  simp only at h
  split_ifs at h
  cases h
  decide

theorem NewRateLimiter_wellTyped (q : Int) (hq : isInt64 q) : (NewRateLimiter q).wellTyped := by
  refine ⟨hq, ?_⟩
  intro k e h
  cases h

/-- Witness of C10: the first call on the empty table of a limiter with quota
3 (case 1), a call inside the window of an exhausted entry (case 4), a call
after that window (case 2), and a call inside the window of a fresh entry
(case 3). -/
theorem C10_allow_fixed_window_witness :
    ((Allow (NewRateLimiter 3) 0 (goStr "5112830366")).2 = true ∧
      (Allow (NewRateLimiter 3) 0 (goStr "5112830366")).1.limits (goStr "5112830366")
        = some (accountLimit.mk 1 60000000000)) ∧
    ((Allow exhaustedLimiter 50 (goStr "5112830366")).2 = false ∧
      (Allow exhaustedLimiter 50 (goStr "5112830366")).1.limits = exhaustedLimiter.limits) ∧
    ((Allow exhaustedLimiter 101 (goStr "5112830366")).2 = true ∧
      (Allow exhaustedLimiter 101 (goStr "5112830366")).1.limits (goStr "5112830366")
        = some (accountLimit.mk 1 60000000101)) ∧
    ((Allow (Allow (NewRateLimiter 3) 0 (goStr "5112830366")).1 7 (goStr "5112830366")).2 = true ∧
      (Allow (Allow (NewRateLimiter 3) 0 (goStr "5112830366")).1 7
          (goStr "5112830366")).1.limits (goStr "5112830366")
        = some (accountLimit.mk 2 60000000000)) :=
  ⟨(C10_allow_fixed_window (NewRateLimiter 3) (goStr "5112830366") 0
      (NewRateLimiter_wellTyped 3 (by decide))).1 rfl,
   (C10_allow_fixed_window exhaustedLimiter (goStr "5112830366") 50
      exhaustedLimiter_wellTyped).2.2.2.1 (accountLimit.mk 3 100) (by decide) (by decide)
      (by decide),
   (C10_allow_fixed_window exhaustedLimiter (goStr "5112830366") 101
      exhaustedLimiter_wellTyped).2.1 (accountLimit.mk 3 100) (by decide) (by decide),
   (C10_allow_fixed_window (Allow (NewRateLimiter 3) 0 (goStr "5112830366")).1
      (goStr "5112830366") 7
      ⟨by decide, fun k e h => by
        by_cases hk : k = goStr "5112830366"
        · subst hk
          have h1 : some (accountLimit.mk 1 60000000000) = some e := h
          cases h1
          decide
        · rw [Allow_frame _ _ _ _ hk] at h
          cases h⟩).2.2.1
      (accountLimit.mk 1 60000000000) (by decide) (by decide) (by decide)⟩

end middleware

/-! ## Rate limiter: quota per window, reads and reachable states -/

namespace middleware

theorem AllowSeq_cons (rl : RateLimiter) (k : GoString) (now : Time) (rest : List Time) :
    AllowSeq rl k (now :: rest) =
      ((AllowSeq (Allow rl now k).1 k rest).1,
        (Allow rl now k).2 :: (AllowSeq (Allow rl now k).1 k rest).2) := rfl

/-- Inside the window of an entry, `Allow` counts up while the count is below
the quota. -/
theorem Allow_in_window_below (rl : RateLimiter) (k : GoString) (now : Time)
    (e : accountLimit) (h : rl.limits k = some e) (hnow : now ≤ e.resetTime)
    (hlt : e.count < rl.maxPerMinute) (hc : isInt64 e.count) (hq : isInt64 rl.maxPerMinute) :
    Allow rl now k =
      (RateLimiter.mk (rl.limits.store k (accountLimit.mk (e.count + 1) e.resetTime))
        rl.maxPerMinute, true) := by
  unfold Allow
  rw [h]
  simp only [if_neg (not_lt.mpr hnow), if_pos hlt, count_succ_no_wrap hc hq hlt]

/-- Inside the window of an entry that has used the quota, `Allow` denies and
changes nothing. -/
theorem Allow_in_window_full (rl : RateLimiter) (k : GoString) (now : Time)
    (e : accountLimit) (h : rl.limits k = some e) (hnow : now ≤ e.resetTime)
    (hge : ¬ e.count < rl.maxPerMinute) :
    Allow rl now k = (rl, false) := by
  unfold Allow
  rw [h]
  simp only [if_neg (not_lt.mpr hnow), if_neg hge]

/-- After the window of an entry, `Allow` starts a new window with count 1. -/
theorem Allow_after_window (rl : RateLimiter) (k : GoString) (now : Time)
    (e : accountLimit) (h : rl.limits k = some e) (hnow : now > e.resetTime) :
    Allow rl now k =
      (RateLimiter.mk (rl.limits.store k (accountLimit.mk 1 (now + Minute)))
        rl.maxPerMinute, true) := by
  unfold Allow
  rw [h]
  simp only [if_pos hnow]

/-- On a key without entry, `Allow` starts a window with count 1. -/
theorem Allow_fresh (rl : RateLimiter) (k : GoString) (now : Time)
    (h : rl.limits k = none) :
    Allow rl now k =
      (RateLimiter.mk (rl.limits.store k (accountLimit.mk 1 (now + Minute)))
        rl.maxPerMinute, true) := by
  unfold Allow
  rw [h]

/-- Calls inside the window of an entry whose count is `d` below the quota:
of `d + 1` calls the first `d` are allowed and the last is denied, and the
entry ends with the count equal to the quota and the same reset time. -/
theorem AllowSeq_in_window (k : GoString) (r : Time) (d : Nat) :
    ∀ (rl : RateLimiter) (c : Int) (ts : List Time),
      isInt64 rl.maxPerMinute → rl.limits k = some (accountLimit.mk c r) → isInt64 c →
      c + d = rl.maxPerMinute → ts.length = d + 1 → (∀ t ∈ ts, t ≤ r) →
      (AllowSeq rl k ts).2 = List.replicate d true ++ [false] ∧
      (AllowSeq rl k ts).1.limits k = some (accountLimit.mk rl.maxPerMinute r) ∧
      (AllowSeq rl k ts).1.maxPerMinute = rl.maxPerMinute := by
  induction d with
  | zero =>
    intro rl c ts hq h hc hcd hlen hts
    match ts, hlen, hts with
    | [t], _, hts =>
      have hA := Allow_in_window_full rl k t _ h (hts t (List.mem_singleton.mpr rfl))
        (by simp only; omega)
      have hc' : c = rl.maxPerMinute := by omega
      rw [AllowSeq_cons, hA]
      simp only [AllowSeq, List.replicate_zero, List.nil_append, true_and, and_true]
      rw [h, hc']
  | succ n ih =>
    intro rl c ts hq h hc hcd hlen hts
    match ts, hlen, hts with
    | t :: rest, hlen, hts =>
      have hlt : c < rl.maxPerMinute := by omega
      have hA := Allow_in_window_below rl k t _ h (hts t (List.mem_cons_self t rest))
        hlt hc hq
      simp only at hA
      have hlen' : rest.length = n + 1 := by
        simp only [List.length_cons] at hlen
        omega
      have hc1 : isInt64 (c + 1) := by
        unfold isInt64 at *
        omega
      have hrec := ih
        (RateLimiter.mk (rl.limits.store k (accountLimit.mk (c + 1) r)) rl.maxPerMinute)
        (c + 1) rest hq (Table.store_same _ _ _) hc1
        (by simp only; push_cast at hcd; omega) hlen'
        (fun t' ht' => hts t' (List.mem_cons_of_mem t ht'))
      rw [AllowSeq_cons, hA]
      simp only at hrec ⊢
      refine ⟨?_, hrec.2.1, hrec.2.2⟩
      rw [hrec.1, List.replicate_succ, List.cons_append]

end middleware

namespace middleware

/-- C11: quota per window. For every quota Q >= 1 and key k with no entry, in
a sequence of Q+1 `Allow(k)` calls that all come at or before (time of the
first call + 60s), the first Q calls return true and the (Q+1)-th returns
false; a following `Allow(k)` at a time strictly after that reset time
returns true and leaves the count of k equal to 1. (The order of the times
inside the window plays no role, so non-decreasing times are a special
case.) -/
theorem C11_quota_per_window (q : Nat) (hq : 1 ≤ q) (rl : RateLimiter) (hty : rl.wellTyped)
    (hQ : rl.maxPerMinute = q) (k : GoString) (hk : rl.limits k = none)
    (t0 : Time) (ts : List Time) (hlen : ts.length = q)
    (hts : ∀ t ∈ ts, t ≤ t0 + 60000000000) :
    (AllowSeq rl k (t0 :: ts)).2 = List.replicate q true ++ [false] ∧
    ∀ t' : Time, t' > t0 + 60000000000 →
      (Allow (AllowSeq rl k (t0 :: ts)).1 t' k).2 = true ∧
      ∃ r : Time, (Allow (AllowSeq rl k (t0 :: ts)).1 t' k).1.limits k
        = some (accountLimit.mk 1 r) := by
  obtain ⟨d, rfl⟩ : ∃ d, q = d + 1 := ⟨q - 1, by omega⟩
  have hq64 : isInt64 rl.maxPerMinute := hty.1
  have hwin := AllowSeq_in_window k (t0 + Minute) d
    (RateLimiter.mk (rl.limits.store k (accountLimit.mk 1 (t0 + Minute))) rl.maxPerMinute)
    1 ts hq64 (Table.store_same _ _ _) (by decide)
    (by simp only; rw [hQ]; push_cast; omega) hlen hts
  simp only at hwin
  rw [AllowSeq_cons, Allow_fresh rl k t0 hk]
  simp only
  refine ⟨?_, ?_⟩
  · rw [hwin.1, List.replicate_succ, List.cons_append]
  · intro t' ht'
    have hA := Allow_after_window _ k t' _ hwin.2.1 ht'
    rw [hA]
    exact ⟨rfl, t' + Minute, Table.store_same _ _ _⟩

/-- Witness of C11 for Q = 3: true, true, true, false inside the window, then
true with count 1 after the window. -/
theorem C11_quota_per_window_witness :
    (AllowSeq (NewRateLimiter 3) (goStr "5112830366") [0, 10, 20, 30]).2
      = [true, true, true, false] ∧
    (Allow (AllowSeq (NewRateLimiter 3) (goStr "5112830366") [0, 10, 20, 30]).1
        60000000001 (goStr "5112830366")).2 = true ∧
    ∃ r : Time,
      (Allow (AllowSeq (NewRateLimiter 3) (goStr "5112830366") [0, 10, 20, 30]).1
        60000000001 (goStr "5112830366")).1.limits (goStr "5112830366")
        = some (accountLimit.mk 1 r) :=
  ⟨(C11_quota_per_window 3 (by decide) (NewRateLimiter 3)
      (NewRateLimiter_wellTyped 3 (by decide)) rfl (goStr "5112830366") rfl 0 [10, 20, 30] rfl
      (by decide)).1,
   (C11_quota_per_window 3 (by decide) (NewRateLimiter 3)
      (NewRateLimiter_wellTyped 3 (by decide)) rfl (goStr "5112830366") rfl 0 [10, 20, 30] rfl
      (by decide)).2 60000000001 (by decide)⟩

end middleware

namespace middleware

/-- `GetRemaining` returns the limiter it was given. -/
theorem GetRemaining_state (rl : RateLimiter) (now : Time) (k : GoString) :
    (GetRemaining rl now k).1 = rl := by
  unfold GetRemaining
  split
  · rfl
  · simp only
    split_ifs <;> rfl

/-- With a quota that is not negative, `GetRemaining` is not negative. -/
theorem GetRemaining_nonneg (rl : RateLimiter) (now : Time) (k : GoString)
    (hq : 0 ≤ rl.maxPerMinute) : 0 ≤ (GetRemaining rl now k).2 := by
  unfold GetRemaining
  split
  · exact hq
  · simp only
    split_ifs with h1 h2
    · exact hq
    · exact le_refl (0 : Int)
    · exact not_lt.mp h2

theorem cleanup_maxPerMinute (rl : RateLimiter) (now : Time) :
    (cleanup rl now).maxPerMinute = rl.maxPerMinute := rfl

/-- Every reachable state keeps the quota the limiter was created with. -/
theorem Reachable_maxPerMinute (q : Int) (rl : RateLimiter) (h : Reachable q rl) :
    rl.maxPerMinute = q := by
  induction h with
  | init => rfl
  | allow rl now k _ ih => rw [Allow_maxPerMinute, ih]
  | sweep rl now _ ih => rw [cleanup_maxPerMinute, ih]

/-- C12 (as stated, refuted): in the state reached from `NewRateLimiter(0)` by
one `Allow` at instant 0, the key has the unexpired entry (count 1, reset
60s) and the quota is 0, so Q - count = -1; `GetRemaining` at instant 5
returns 0, not Q - count. -/
theorem C12_get_remaining_clamps :
    (Allow (NewRateLimiter 0) 0 (goStr "5112830366")).1.limits (goStr "5112830366")
      = some (accountLimit.mk 1 60000000000) ∧
    (Allow (NewRateLimiter 0) 0 (goStr "5112830366")).1.maxPerMinute = 0 ∧
    ¬ ((5 : Time) > 60000000000) ∧
    (GetRemaining (Allow (NewRateLimiter 0) 0 (goStr "5112830366")).1 5
      (goStr "5112830366")).2 = 0 ∧
    (GetRemaining (Allow (NewRateLimiter 0) 0 (goStr "5112830366")).1 5
      (goStr "5112830366")).2
      ≠ (Allow (NewRateLimiter 0) 0 (goStr "5112830366")).1.maxPerMinute - 1 := by
  refine ⟨by decide, by decide, by decide, by decide, by decide⟩

/-- C12 (amended): `GetRemaining` is a non-mutating read. For every limiter
state with quota Q, key k and time now, it returns Q when k has no entry or
now is strictly after the entry's reset time, and otherwise, for the
unexpired entry (Q - count not overflowing int64), Q - count when
count <= Q and 0 when count > Q; the limiter, and so its table, is identical
before and after the call. -/
theorem C12_get_remaining_read (rl : RateLimiter) (k : GoString) (now : Time) :
    (rl.limits k = none → (GetRemaining rl now k).2 = rl.maxPerMinute) ∧
    (∀ e, rl.limits k = some e → now > e.resetTime →
      (GetRemaining rl now k).2 = rl.maxPerMinute) ∧
    (∀ e, rl.limits k = some e → ¬ now > e.resetTime →
      isInt64 (rl.maxPerMinute - e.count) →
      (e.count ≤ rl.maxPerMinute → (GetRemaining rl now k).2 = rl.maxPerMinute - e.count) ∧
      (rl.maxPerMinute < e.count → (GetRemaining rl now k).2 = 0)) ∧
    (GetRemaining rl now k).1 = rl ∧
    (GetRemaining rl now k).1.limits = rl.limits := by
  refine ⟨?_, ?_, ?_, GetRemaining_state rl now k, by rw [GetRemaining_state]⟩
  · intro h
    unfold GetRemaining
    rw [h]
  · intro e h hexp
    unfold GetRemaining
    rw [h]
    simp only [if_pos hexp]
  · intro e h hexp hfit
    unfold GetRemaining
    rw [h]
    simp only [if_neg hexp, wrapInt64_of_isInt64 hfit]
    constructor
    · intro hle
      rw [if_neg (by omega)]
    · intro hgt
      rw [if_pos (by omega)]

/-- Witness of C12 (amended): an exhausted entry inside its window leaves 0,
the same entry after its window leaves the whole quota 3, and a count above
the quota is clamped to 0. -/
theorem C12_get_remaining_read_witness :
    (GetRemaining exhaustedLimiter 50 (goStr "5112830366")).2 = 3 - 3 ∧
    (GetRemaining exhaustedLimiter 101 (goStr "5112830366")).2 = 3 ∧
    (GetRemaining (Allow (NewRateLimiter 0) 0 (goStr "5112830366")).1 5
      (goStr "5112830366")).2 = 0 :=
  ⟨((C12_get_remaining_read exhaustedLimiter (goStr "5112830366") 50).2.2.1
      (accountLimit.mk 3 100) (by decide) (by decide) (by decide)).1 (by decide),
   (C12_get_remaining_read exhaustedLimiter (goStr "5112830366") 101).2.1
      (accountLimit.mk 3 100) (by decide) (by decide),
   ((C12_get_remaining_read (Allow (NewRateLimiter 0) 0 (goStr "5112830366")).1
      (goStr "5112830366") 5).2.2.1
      (accountLimit.mk 1 60000000000) (by decide) (by decide) (by decide)).2 (by decide)⟩

/-- C13 (as stated, refuted): the limiter `NewRateLimiter(-5)` is reachable
(it is the initial state), its table is empty, and `GetRemaining` returns the
quota -5, which is negative. -/
theorem C13_get_remaining_negative_quota :
    Reachable (-5) (NewRateLimiter (-5)) ∧
    (GetRemaining (NewRateLimiter (-5)) 0 (goStr "5112830366")).2 = -5 ∧
    ¬ (0 ≤ (GetRemaining (NewRateLimiter (-5)) 0 (goStr "5112830366")).2) := by
  refine ⟨Reachable.init, by decide, by decide⟩

/-- C13 (amended): `GetRemaining` never returns a negative number for a quota
that is not negative: for every limiter created by
`NewRateLimiter(maxPerMinute)` with maxPerMinute >= 0, every table state
reachable through `Allow` and `cleanup`, every key and every time,
GetRemaining(key) >= 0. -/
theorem C13_get_remaining_nonneg (q : Int) (hq : 0 ≤ q) (rl : RateLimiter)
    (hreach : Reachable q rl) (k : GoString) (now : Time) :
    0 ≤ (GetRemaining rl now k).2 := by
  apply GetRemaining_nonneg
  rw [Reachable_maxPerMinute q rl hreach]
  exact hq

/-- Witness of C13 (amended): quota 0, after one `Allow` and one sweep. -/
theorem C13_get_remaining_nonneg_witness :
    0 ≤ (GetRemaining (cleanup (Allow (NewRateLimiter 0) 0 (goStr "5112830366")).1 7) 9
      (goStr "5112830366")).2 :=
  C13_get_remaining_nonneg 0 (by decide)
    (cleanup (Allow (NewRateLimiter 0) 0 (goStr "5112830366")).1 7)
    (Reachable.sweep _ 7 (Reachable.allow _ 0 (goStr "5112830366") Reachable.init))
    (goStr "5112830366") 9

end middleware

/-! ## Ledger client: lemmas -/

namespace bank

theorem statusError_of_ne_OK (c : Code) (msg : GoString) (h : c ≠ Code.OK) :
    statusError c msg = some { code := c, message := msg } := by
  unfold statusError
  rw [if_neg h]

/-- Once the HTTP exchange has taken place, `CreateTransaction` is determined
by its outcome. -/
theorem CreateTransaction_of_exchange (env : Env) (c : Client) (now : Int)
    (req : TransactionRequest) (t : Transport) (h : exchange env c req = some t) :
    CreateTransaction env c now req = transportResult env now req t := by
  unfold exchange at h
  unfold CreateTransaction transportResult
  split at h
  · cases h
  · rename_i hN
    simp only [hN]
    split at h
    · rename_i hA
      have ht := Option.some.inj h
      subst ht
      rfl
    · rename_i a hA
      split at h
      · cases h
      · rename_i hdr hH
        have ht := Option.some.inj h
        subst ht
        rfl

/-- A response with status 200 or 201 whose body decodes yields the decoded
receipt. -/
theorem classifyResponse_ok (env : Env) (now : Int) (req : TransactionRequest)
    (status : Int) (body : GoString) (tx : TransactionResponse)
    (hs : status = 200 ∨ status = 201)
    (hp : env.UnmarshalTransactionResponse body = Except.ok tx) :
    classifyResponse env now req status body = (some tx, none) := by
  unfold classifyResponse
  rw [if_neg (by omega), hp]

/-- A response with status 200 whose body does not decode is a parse error. -/
theorem classifyResponse_200_unparseable (env : Env) (now : Int) (req : TransactionRequest)
    (body err : GoString) (hp : env.UnmarshalTransactionResponse body = Except.error err) :
    classifyResponse env now req 200 body
      = (none, some (ErrorValue.other (goStr "failed to parse response: " ++ err))) := by
  unfold classifyResponse
  rw [if_neg (by decide), hp]
  simp only
  rw [if_neg (by decide)]

/-- A response with status 201 whose body does not decode yields a receipt
built from the request. -/
theorem classifyResponse_201_unparseable (env : Env) (now : Int) (req : TransactionRequest)
    (body err : GoString) (hp : env.UnmarshalTransactionResponse body = Except.error err) :
    classifyResponse env now req 201 body
      = (some { TransactionID := 0,
                FromAccountNum := req.FromAccountNum, FromRoutingNum := req.FromRoutingNum,
                ToAccountNum := req.ToAccountNum, ToRoutingNum := req.ToRoutingNum,
                Amount := req.Amount, Timestamp := now }, none) := by
  unfold classifyResponse
  rw [if_neg (by decide), hp]
  simp only [if_true]

/-- Decision table of `ToGRPCError` for a duplicate that is not a 401. -/
theorem ToGRPCError_duplicate (e : BankError)
    (h : e.StatusCode = 409 ∨ (e.ErrorCode = goStr "duplicate_transaction" ∧ e.StatusCode ≠ 401)) :
    e.ToGRPCError = some { code := Code.AlreadyExists, message := goStr "duplicate transaction" } := by
  have h1 : e.IsUnauthorized = false := by
    unfold BankError.IsUnauthorized
    rcases h with h | ⟨_, h⟩
    · rw [h]
      decide
    · simpa using h
  have h2 : e.IsInsufficientFunds = false := by
    unfold BankError.IsInsufficientFunds
    rcases h with h | ⟨h, _⟩
    · rw [h]
      rfl
    · rw [h]
      simp only [Bool.and_eq_false_imp]
      intro _
      decide
  have h3 : e.IsDuplicateTransaction = true := by
    unfold BankError.IsDuplicateTransaction
    rcases h with h | ⟨h, _⟩
    · rw [h]
      simp
    · rw [h]
      simp
  unfold BankError.ToGRPCError
  rw [h1, h2, h3]
  simp only [Bool.false_eq_true, if_false, if_true]
  exact statusError_of_ne_OK _ _ (by decide)

/-- Decision table of `ToGRPCError` for a 5xx status that carries no
duplicate signal. -/
theorem ToGRPCError_5xx (e : BankError) (h : e.StatusCode ≥ 500)
    (hd : e.IsDuplicateTransaction = false) :
    e.ToGRPCError = some { code := Code.Internal, message := goStr "bank service error" } := by
  have h1 : e.IsUnauthorized = false := by
    unfold BankError.IsUnauthorized
    simp only [beq_eq_false_iff_ne, ne_eq]
    omega
  have h2 : e.IsInsufficientFunds = false := by
    unfold BankError.IsInsufficientFunds
    have : (e.StatusCode == 400) = false := by
      simp only [beq_eq_false_iff_ne, ne_eq]
      omega
    rw [this]
    rfl
  unfold BankError.ToGRPCError
  rw [h1, h2, hd]
  simp only [Bool.false_eq_true, if_false]
  rw [if_neg (by omega), if_pos h]
  exact statusError_of_ne_OK _ _ (by decide)

theorem HandleBankError_other (text : GoString) :
    HandleBankError (some (ErrorValue.other text)) =
      some { code := Code.Internal, message := goStr "bank communication error: " ++ text } := by
  unfold HandleBankError
  exact statusError_of_ne_OK _ _ (by decide)

end bank

/-! ## Charge orchestrator: lemmas -/

namespace server

open converter mapper middleware bank

/-- A request that passes validation and conversion reaches the rate limiter:
on a denial `Charge` stops with ResourceExhausted, and only the limiter has
changed. -/
theorem Charge_denied (env : Env) (fx : Effects) (st : State) (req : ChargeRequest)
    (amount : Money) (card : CreditCardInfo) (cents : Int)
    (hv : PassesValidation req amount card cents)
    (hdeny : (Allow (GetRateLimiter st.globalRateLimiter) fx.now (payerAccount st card)).2
      = false) :
    Charge env fx st req =
      (State.mk st.server
          (some (Allow (GetRateLimiter st.globalRateLimiter) fx.now (payerAccount st card)).1)
          st.ledgerCalls,
        none,
        some { code := Code.ResourceExhausted,
               message := goStr "too many payment requests, please try again later" }) := by
  obtain ⟨hA, hC, hV, hM⟩ := hv
  unfold payerAccount at hdeny
  unfold Charge
  simp only [hA, hC, hV, hM, hdeny, if_true, GetRemaining_state]
  rw [statusError_of_ne_OK _ _ (by decide)]
  rfl

/-- A request that passes validation and is admitted, with a bank client
configured: `Charge` calls `CreateTransaction` once, with `ledgerRequest`,
answers with the transaction id when the call returns no error, and otherwise
with the status that `HandleBankError` gives the error. -/
theorem Charge_admitted_ledger (env : Env) (fx : Effects) (st : State) (req : ChargeRequest)
    (amount : Money) (card : CreditCardInfo) (cents : Int) (client : Client)
    (hv : PassesValidation req amount card cents)
    (hallow : (Allow (GetRateLimiter st.globalRateLimiter) fx.now (payerAccount st card)).2
      = true)
    (hclient : st.server.bankClient = some client) :
    Charge env fx st req =
      (State.mk st.server
          (some (Allow (GetRateLimiter st.globalRateLimiter) fx.now (payerAccount st card)).1)
          (st.ledgerCalls ++ [ledgerRequest st card cents fx.transactionUUID]),
        (match (CreateTransaction env client fx.bankNow
                  (ledgerRequest st card cents fx.transactionUUID)).2 with
          | none => some { TransactionId := fx.transactionUUID }
          | some _ => none),
        HandleBankError (CreateTransaction env client fx.bankNow
          (ledgerRequest st card cents fx.transactionUUID)).2) := by
  obtain ⟨hA, hC, hV, hM⟩ := hv
  unfold payerAccount at hallow
  unfold Charge
  simp only [hA, hC, hV, hM, hallow, hclient, Bool.true_eq_false, if_false]
  unfold ledgerRequest payerAccount
  cases hr : (CreateTransaction env client fx.bankNow
      { FromAccountNum := (CardNumberToAccount st.server.accountMapper card.CreditCardNumber).1,
        FromRoutingNum := (CardNumberToAccount st.server.accountMapper card.CreditCardNumber).2,
        ToAccountNum := (GetMerchantAccount st.server.accountMapper).1,
        ToRoutingNum := (GetMerchantAccount st.server.accountMapper).2,
        Amount := cents, UUID := fx.transactionUUID }).2 with
  | none => rfl
  | some err =>
    cases err with
    | bankError e => rfl
    | other text => rfl

end server

/-! ## Ledger client and charge orchestrator: the claims -/

namespace server

open converter mapper middleware bank

/-- A request that passes validation and is admitted, with no bank client
configured: `Charge` increments the fallback counter and answers with a
simulated transaction id, without any ledger call. -/
theorem Charge_admitted_degraded (env : Env) (fx : Effects) (st : State) (req : ChargeRequest)
    (amount : Money) (card : CreditCardInfo) (cents : Int)
    (hv : PassesValidation req amount card cents)
    (hallow : (Allow (GetRateLimiter st.globalRateLimiter) fx.now (payerAccount st card)).2
      = true)
    (hclient : st.server.bankClient = none) :
    Charge env fx st req =
      (State.mk
          (PaymentServer.mk st.server.accountMapper none
            (wrapInt64 (st.server.transactionCounter + 1)))
          (some (Allow (GetRateLimiter st.globalRateLimiter) fx.now (payerAccount st card)).1)
          st.ledgerCalls,
        some { TransactionId := goStr "SIM-" ++ formatInt fx.unixNow ++ goStr "-"
                 ++ formatInt (wrapInt64 (st.server.transactionCounter + 1)) },
        none) := by
  obtain ⟨hA, hC, hV, hM⟩ := hv
  unfold payerAccount at hallow
  unfold Charge
  simp only [hA, hC, hV, hM, hallow, hclient, Bool.true_eq_false, if_false]
  rfl

/-- C14 (as stated, refuted): the BankError with StatusCode 401 and ErrorCode
"duplicate_transaction" carries the duplicate signal in its error code, yet
`ToGRPCError` (and `HandleBankError`) classify it as Unauthenticated, not
AlreadyExists: the 401 case comes first in the decision table. -/
theorem C14_duplicate_code_with_401 :
    (BankError.mk 401 (goStr "duplicate_transaction") (goStr "token expired")).ErrorCode
      = goStr "duplicate_transaction" ∧
    (BankError.mk 401 (goStr "duplicate_transaction") (goStr "token expired")).ToGRPCError
      = some { code := Code.Unauthenticated,
               message := goStr "authentication with bank failed" } ∧
    HandleBankError (some (ErrorValue.bankError
        (BankError.mk 401 (goStr "duplicate_transaction") (goStr "token expired"))))
      = some { code := Code.Unauthenticated,
               message := goStr "authentication with bank failed" } ∧
    Code.Unauthenticated ≠ Code.AlreadyExists := by
  refine ⟨by decide, by decide, by decide, by decide⟩

/-- C14 (amended): for every BankError whose StatusCode is 409, or whose
ErrorCode is "duplicate_transaction" and whose StatusCode is not 401,
whatever the value of the other fields, `ToGRPCError`, and hence
`HandleBankError` and `Charge` (for an admitted request whose ledger call
returns that error), return a gRPC status with code AlreadyExists. -/
theorem C14_duplicate_is_already_exists (e : BankError)
    (h : e.StatusCode = 409 ∨
      (e.ErrorCode = goStr "duplicate_transaction" ∧ e.StatusCode ≠ 401)) :
    e.ToGRPCError
      = some { code := Code.AlreadyExists, message := goStr "duplicate transaction" } ∧
    HandleBankError (some (ErrorValue.bankError e))
      = some { code := Code.AlreadyExists, message := goStr "duplicate transaction" } ∧
    ∀ (env : Env) (fx : Effects) (st : State) (req : ChargeRequest) (amount : Money)
      (card : CreditCardInfo) (cents : Int) (client : Client),
      PassesValidation req amount card cents →
      (Allow (GetRateLimiter st.globalRateLimiter) fx.now (payerAccount st card)).2 = true →
      st.server.bankClient = some client →
      (CreateTransaction env client fx.bankNow
        (ledgerRequest st card cents fx.transactionUUID)).2 = some (ErrorValue.bankError e) →
      (Charge env fx st req).2
        = (none, some { code := Code.AlreadyExists,
                        message := goStr "duplicate transaction" }) := by
  have hT := ToGRPCError_duplicate e h
  refine ⟨hT, ?_, ?_⟩
  · unfold HandleBankError
    exact hT
  · intro env fx st req amount card cents client hv hallow hclient hr
    rw [Charge_admitted_ledger env fx st req amount card cents client hv hallow hclient, hr]
    simp only [HandleBankError, hT]

/-- Witness of C14 (amended): the 409 duplicate of the tests, a 409 with
another error code, and the duplicate error code on a 400. -/
theorem C14_duplicate_is_already_exists_witness :
    (BankError.mk 409 (goStr "duplicate_transaction")
        (goStr "Transaction with UUID already exists")).ToGRPCError
      = some { code := Code.AlreadyExists, message := goStr "duplicate transaction" } ∧
    (BankError.mk 409 (goStr "insufficient_funds") []).ToGRPCError
      = some { code := Code.AlreadyExists, message := goStr "duplicate transaction" } ∧
    (BankError.mk 400 (goStr "duplicate_transaction") []).ToGRPCError
      = some { code := Code.AlreadyExists, message := goStr "duplicate transaction" } :=
  ⟨(C14_duplicate_is_already_exists
      (BankError.mk 409 (goStr "duplicate_transaction")
        (goStr "Transaction with UUID already exists")) (Or.inl rfl)).1,
   (C14_duplicate_is_already_exists
      (BankError.mk 409 (goStr "insufficient_funds") []) (Or.inl rfl)).1,
   (C14_duplicate_is_already_exists
      (BankError.mk 400 (goStr "duplicate_transaction") [])
      (Or.inr ⟨rfl, by decide⟩)).1⟩

end server

namespace server

open converter mapper middleware bank

/-- C15 (as stated, refuted): with a ledger whose connection is refused, the
example charge ends with the code Internal, not Unavailable, and Internal is
also the code of a remote-classified 503 BankError. -/
theorem C15_transport_failure_not_unavailable :
    (CreateTransaction (exampleEnv (Transport.sendFailed (goStr "connection refused")))
        exampleClient 1
        (ledgerRequest (exampleState (some exampleClient))
          (CreditCardInfo.mk (goStr "4532015112830366")) 10000
          exampleEffects.transactionUUID)).2
      = some (ErrorValue.other (goStr "failed to send request: connection refused")) ∧
    (Charge (exampleEnv (Transport.sendFailed (goStr "connection refused"))) exampleEffects
        (exampleState (some exampleClient)) exampleRequest).2
      = (none, some { code := Code.Internal,
                      message := goStr ("bank communication error: " ++
                        "failed to send request: connection refused") }) ∧
    HandleBankError (some (ErrorValue.other
        (goStr "failed to send request: connection refused")))
      = some { code := Code.Internal,
               message := goStr ("bank communication error: " ++
                 "failed to send request: connection refused") } ∧
    Code.Internal ≠ Code.Unavailable ∧
    (BankError.mk 503 (goStr "transaction_failed") (goStr "unavailable")).ToGRPCError
      = some { code := Code.Internal, message := goStr "bank service error" } := by
  refine ⟨by decide, by decide, by decide, by decide, by decide⟩

/-- C15 (amended): a transport failure of the ledger call (the request cannot
be sent or the response cannot be read, so that `CreateTransaction` returns
an error that is not a BankError) is reported by `Charge` / `HandleBankError`
with the caller-facing code Internal, which is the same code as the one
reported for a remote-classified 5xx BankError; only the messages differ. -/
theorem C15_transport_failure_is_internal (env : Env) (fx : Effects) (st : State)
    (req : ChargeRequest) (amount : Money) (card : CreditCardInfo) (cents : Int)
    (client : Client) (e5 : BankError)
    (hv : PassesValidation req amount card cents)
    (hallow : (Allow (GetRateLimiter st.globalRateLimiter) fx.now (payerAccount st card)).2
      = true)
    (hclient : st.server.bankClient = some client)
    (h5 : e5.StatusCode ≥ 500) (hnd : e5.IsDuplicateTransaction = false) :
    (∀ err, exchange env client (ledgerRequest st card cents fx.transactionUUID)
        = some (Transport.sendFailed err) →
      (CreateTransaction env client fx.bankNow
          (ledgerRequest st card cents fx.transactionUUID)).2
        = some (ErrorValue.other (goStr "failed to send request: " ++ err))) ∧
    (∀ status err, exchange env client (ledgerRequest st card cents fx.transactionUUID)
        = some (Transport.readFailed status err) →
      (CreateTransaction env client fx.bankNow
          (ledgerRequest st card cents fx.transactionUUID)).2
        = some (ErrorValue.other (goStr "failed to read response: " ++ err))) ∧
    (∀ text, (CreateTransaction env client fx.bankNow
          (ledgerRequest st card cents fx.transactionUUID)).2
        = some (ErrorValue.other text) →
      HandleBankError (some (ErrorValue.other text))
        = some { code := Code.Internal,
                 message := goStr "bank communication error: " ++ text } ∧
      (Charge env fx st req).2
        = (none, some { code := Code.Internal,
                        message := goStr "bank communication error: " ++ text }) ∧
      goStr "bank communication error: " ++ text ≠ goStr "bank service error") ∧
    e5.ToGRPCError = some { code := Code.Internal, message := goStr "bank service error" } := by
  refine ⟨?_, ?_, ?_, ToGRPCError_5xx e5 h5 hnd⟩
  · intro err hsend
    rw [CreateTransaction_of_exchange env client fx.bankNow _ _ hsend]
    rfl
  · intro status err hread
    rw [CreateTransaction_of_exchange env client fx.bankNow _ _ hread]
    rfl
  · intro text hother
    refine ⟨HandleBankError_other _, ?_, ?_⟩
    · rw [Charge_admitted_ledger env fx st req amount card cents client hv hallow hclient,
        hother]
      simp only [HandleBankError_other]
    · intro hcontra
      have h6 := congrArg (fun l => l.take 6) hcontra
      have hl : List.take 6 (goStr "bank communication error: " ++ text) = goStr "bank c" := rfl
      simp only [hl] at h6
      revert h6
      decide

/-- Witness of C15 (amended): the example charge against a ledger whose
connection is refused. -/
theorem C15_transport_failure_is_internal_witness :
    (Charge (exampleEnv (Transport.sendFailed (goStr "connection refused"))) exampleEffects
        (exampleState (some exampleClient)) exampleRequest).2
      = (none, some { code := Code.Internal,
                      message := goStr "bank communication error: "
                        ++ goStr "failed to send request: connection refused" }) :=
  ((C15_transport_failure_is_internal
    (exampleEnv (Transport.sendFailed (goStr "connection refused"))) exampleEffects
    (exampleState (some exampleClient)) exampleRequest
    (Money.mk 100 0 (goStr "USD")) (CreditCardInfo.mk (goStr "4532015112830366")) 10000
    exampleClient (BankError.mk 503 (goStr "transaction_failed") (goStr "unavailable"))
    ⟨rfl, rfl, by decide, by decide⟩ (by decide) rfl (by decide) (by decide)).2.2.1
    (goStr "failed to send request: connection refused") (by decide)).2.1

end server

namespace server

open converter mapper middleware bank

set_option maxRecDepth 20000

theorem exampleEnv_decodes_receipt (reply : Transport) :
    (exampleEnv reply).UnmarshalTransactionResponse receiptBody = Except.ok receipt := by
  unfold exampleEnv
  simp only [if_pos]

theorem exampleEnv_rejects (reply : Transport) (body : GoString) (h : body ≠ receiptBody) :
    (exampleEnv reply).UnmarshalTransactionResponse body
      = Except.error (goStr "unexpected end of JSON input") := by
  unfold exampleEnv
  simp only [if_neg h]

/-- C16 (as stated, refuted): the ledger answers the example request with
status 202 (inside 200..299) and a body that parses as a
TransactionResponse, and `CreateTransaction` returns no receipt but a
BankError with status 202. -/
theorem C16_status_202_is_an_error :
    exchange (exampleEnv (Transport.response 202 receiptBody)) exampleClient
        exampleLedgerRequest
      = some (Transport.response 202 receiptBody) ∧
    ((200 : Int) ≤ 202 ∧ (202 : Int) ≤ 299) ∧
    (exampleEnv (Transport.response 202 receiptBody)).UnmarshalTransactionResponse receiptBody
      = Except.ok receipt ∧
    CreateTransaction (exampleEnv (Transport.response 202 receiptBody)) exampleClient 1
        exampleLedgerRequest
      = (none, some (ErrorValue.bankError
          (BankError.mk 202 (goStr "transaction_failed") receiptBody))) := by
  refine ⟨by decide, by decide, exampleEnv_decodes_receipt _, by decide⟩

/-- C16 (amended): for every ledger response whose HTTP status is 200 or 201
and whose body parses as a TransactionResponse, `CreateTransaction` returns
that parsed receipt and a nil error. -/
theorem C16_success_receipt (env : Env) (c : Client) (now : Int) (req : TransactionRequest)
    (status : Int) (body : GoString) (tx : TransactionResponse)
    (hx : exchange env c req = some (Transport.response status body))
    (hs : status = 200 ∨ status = 201)
    (hp : env.UnmarshalTransactionResponse body = Except.ok tx) :
    CreateTransaction env c now req = (some tx, none) := by
  rw [CreateTransaction_of_exchange env c now req _ hx]
  unfold transportResult
  exact classifyResponse_ok env now req status body tx hs hp

/-- Witness of C16 (amended): status 201 with the receipt body of the tests
yields the receipt with TransactionID 12345. -/
theorem C16_success_receipt_witness :
    CreateTransaction (exampleEnv (Transport.response 201 receiptBody)) exampleClient 1
        exampleLedgerRequest = (some receipt, none) ∧
    receipt.TransactionID = 12345 :=
  ⟨C16_success_receipt (exampleEnv (Transport.response 201 receiptBody)) exampleClient 1
      exampleLedgerRequest 201 receiptBody receipt (by decide) (Or.inr rfl)
      (exampleEnv_decodes_receipt _),
   rfl⟩

/-- C17 (as stated, refuted): (1) for status 204 with an empty body, which
does not parse, `CreateTransaction` fails with a BankError that reaches the
caller of `Charge` as Unknown, not Internal; (2) for status 201 with the
non-empty body "oops", which does not parse, `CreateTransaction` returns a
success receipt built from the request. -/
theorem C17_unparseable_2xx_counterexamples :
    ((exampleEnv (Transport.response 204 [])).UnmarshalTransactionResponse []
        = Except.error (goStr "unexpected end of JSON input") ∧
      CreateTransaction (exampleEnv (Transport.response 204 [])) exampleClient 1
          exampleLedgerRequest
        = (none, some (ErrorValue.bankError
            (BankError.mk 204 (goStr "transaction_failed") []))) ∧
      (Charge (exampleEnv (Transport.response 204 [])) exampleEffects
          (exampleState (some exampleClient)) exampleRequest).2
        = (none, some { code := Code.Unknown, message := [] }) ∧
      Code.Unknown ≠ Code.Internal) ∧
    ((exampleEnv (Transport.response 201 (goStr "oops"))).UnmarshalTransactionResponse
          (goStr "oops")
        = Except.error (goStr "unexpected end of JSON input") ∧
      goStr "oops" ≠ [] ∧
      CreateTransaction (exampleEnv (Transport.response 201 (goStr "oops"))) exampleClient 1
          exampleLedgerRequest
        = (some { TransactionID := 0,
                  FromAccountNum := goStr "5112830366", FromRoutingNum := goStr "123456789",
                  ToAccountNum := goStr "1111111111", ToRoutingNum := goStr "123456789",
                  Amount := 10000, Timestamp := 1 }, none)) := by
  refine ⟨⟨exampleEnv_rejects _ _ (by decide), by decide, by decide, by decide⟩,
    ⟨exampleEnv_rejects _ _ (by decide), by decide, by decide⟩⟩

/-- C17 (amended): for a ledger response with status 200 whose body cannot be
parsed, `CreateTransaction` fails and the failure reaches the caller as
Internal; for status 201 with an empty body (which cannot be parsed) it
returns a success receipt whose from/to account numbers, routing numbers and
amount are copied from the request. -/
theorem C17_unparseable_success_body (env : Env) (c : Client) (now : Int)
    (req : TransactionRequest) (status : Int) (body err : GoString)
    (hx : exchange env c req = some (Transport.response status body))
    (hp : env.UnmarshalTransactionResponse body = Except.error err) :
    (status = 200 →
      CreateTransaction env c now req
        = (none, some (ErrorValue.other (goStr "failed to parse response: " ++ err))) ∧
      HandleBankError (CreateTransaction env c now req).2
        = some { code := Code.Internal,
                 message := goStr "bank communication error: "
                   ++ (goStr "failed to parse response: " ++ err) } ∧
      ∀ (fx : Effects) (st : State) (creq : ChargeRequest) (amount : Money)
        (card : CreditCardInfo) (cents : Int),
        PassesValidation creq amount card cents →
        (Allow (GetRateLimiter st.globalRateLimiter) fx.now (payerAccount st card)).2 = true →
        st.server.bankClient = some c →
        req = ledgerRequest st card cents fx.transactionUUID → now = fx.bankNow →
        (Charge env fx st creq).2
          = (none, some { code := Code.Internal,
                          message := goStr "bank communication error: "
                            ++ (goStr "failed to parse response: " ++ err) })) ∧
    (status = 201 → body = [] →
      CreateTransaction env c now req
        = (some { TransactionID := 0,
                  FromAccountNum := req.FromAccountNum, FromRoutingNum := req.FromRoutingNum,
                  ToAccountNum := req.ToAccountNum, ToRoutingNum := req.ToRoutingNum,
                  Amount := req.Amount, Timestamp := now }, none)) := by
  have hC := CreateTransaction_of_exchange env c now req _ hx
  unfold transportResult at hC
  simp only at hC
  constructor
  · intro hs
    subst hs
    rw [classifyResponse_200_unparseable env now req body err hp] at hC
    refine ⟨hC, ?_, ?_⟩
    · rw [hC]
      exact HandleBankError_other _
    · intro fx st creq amount card cents hv hallow hclient hreq hnow
      subst hreq
      subst hnow
      rw [Charge_admitted_ledger env fx st creq amount card cents c hv hallow hclient, hC]
      simp only [HandleBankError_other]
  · intro hs _
    subst hs
    rw [classifyResponse_201_unparseable env now req body err hp] at hC
    exact hC

/-- Witness of C17 (amended): status 201 with an empty body, for the example
request. -/
theorem C17_unparseable_success_body_witness :
    CreateTransaction (exampleEnv (Transport.response 201 [])) exampleClient 1
        exampleLedgerRequest
      = (some { TransactionID := 0,
                FromAccountNum := exampleLedgerRequest.FromAccountNum,
                FromRoutingNum := exampleLedgerRequest.FromRoutingNum,
                ToAccountNum := exampleLedgerRequest.ToAccountNum,
                ToRoutingNum := exampleLedgerRequest.ToRoutingNum,
                Amount := exampleLedgerRequest.Amount, Timestamp := 1 }, none) :=
  (C17_unparseable_success_body (exampleEnv (Transport.response 201 [])) exampleClient 1
    exampleLedgerRequest 201 [] (goStr "unexpected end of JSON input") (by decide)
    (exampleEnv_rejects _ _ (by decide))).2 rfl rfl

end server

namespace server

open converter mapper middleware bank

/-- C18: `Charge` fails fast on bad input without side effects. For every
request in which the amount is absent, or the card info is absent, or
`ValidateCardNumber` rejects the card number, or `BoutiqueMoneyToCents`
fails, `Charge` returns no response and a gRPC error with code
InvalidArgument, and the state is the one before the call: the rate-limiter
variable and table, the trace of ledger calls and the fallback transaction
counter are unchanged. -/
theorem C18_charge_fails_fast (env : Env) (fx : Effects) (st : State) (req : ChargeRequest)
    (h : req.Amount = none ∨ req.CreditCard = none ∨
      (∃ card, req.CreditCard = some card ∧ ValidateCardNumber card.CreditCardNumber ≠ none) ∨
      (BoutiqueMoneyToCents req.Amount).2 ≠ none) :
    (Charge env fx st req).2.1 = none ∧
    (∃ msg, (Charge env fx st req).2.2 = some { code := Code.InvalidArgument, message := msg }) ∧
    (Charge env fx st req).1 = st ∧
    (Charge env fx st req).1.globalRateLimiter = st.globalRateLimiter ∧
    (Charge env fx st req).1.ledgerCalls = st.ledgerCalls ∧
    (Charge env fx st req).1.server.transactionCounter = st.server.transactionCounter := by
  have key : (Charge env fx st req).2.1 = none ∧
      (∃ msg, (Charge env fx st req).2.2
        = some { code := Code.InvalidArgument, message := msg }) ∧
      (Charge env fx st req).1 = st := by
    unfold Charge
    cases hA : req.Amount with
    | none =>
      simp only
      exact ⟨trivial, ⟨goStr "amount is required",
        statusError_of_ne_OK Code.InvalidArgument _ (by decide)⟩, trivial⟩
    | some amount =>
      cases hC : req.CreditCard with
      | none =>
        simp only
        exact ⟨trivial, ⟨goStr "credit card info is required",
          statusError_of_ne_OK Code.InvalidArgument _ (by decide)⟩, trivial⟩
      | some card =>
        cases hV : ValidateCardNumber card.CreditCardNumber with
        | some err =>
          simp only [hV]
          exact ⟨trivial, ⟨goStr "invalid card number: " ++ goStr err,
            statusError_of_ne_OK Code.InvalidArgument _ (by decide)⟩, trivial⟩
        | none =>
          rcases hM : BoutiqueMoneyToCents (some amount) with ⟨cents, _ | err⟩
          · exfalso
            rcases h with h | h | ⟨card', hc', hv'⟩ | h
            · rw [hA] at h
              cases h
            · rw [hC] at h
              cases h
            · rw [hC] at hc'
              cases hc'
              exact hv' hV
            · rw [hA, hM] at h
              exact h rfl
          · simp only [hV, hM]
            exact ⟨trivial, ⟨goStr "invalid amount: " ++ goStr err,
              statusError_of_ne_OK Code.InvalidArgument _ (by decide)⟩, trivial⟩
  refine ⟨key.1, key.2.1, key.2.2, ?_, ?_, ?_⟩ <;> rw [key.2.2]

/-- Witness of C18: a request without amount, and a request whose card number
has 12 digits, against the example state. -/
theorem C18_charge_fails_fast_witness :
    (Charge (exampleEnv (Transport.response 201 receiptBody)) exampleEffects
        (exampleState (some exampleClient))
        (ChargeRequest.mk none (some (CreditCardInfo.mk (goStr "4532015112830366"))))).2
      = (none, some { code := Code.InvalidArgument, message := goStr "amount is required" }) ∧
    (Charge (exampleEnv (Transport.response 201 receiptBody)) exampleEffects
        (exampleState (some exampleClient))
        (ChargeRequest.mk (some (Money.mk 100 0 (goStr "USD")))
          (some (CreditCardInfo.mk (goStr "123456789012"))))).1.ledgerCalls = [] :=
  ⟨by decide,
   (C18_charge_fails_fast (exampleEnv (Transport.response 201 receiptBody)) exampleEffects
      (exampleState (some exampleClient))
      (ChargeRequest.mk (some (Money.mk 100 0 (goStr "USD")))
        (some (CreditCardInfo.mk (goStr "123456789012"))))
      (Or.inr (Or.inr (Or.inl ⟨_, rfl, by decide⟩)))).2.2.2.2.1⟩

/-- C19: for every request that passes validation and conversion, `Charge`
consults the rate limiter with the key CardNumberToAccount(card
number).account (the limiter after the call is the one `Allow` leaves for
that key); if `Allow` returns false, `Charge` returns no response and a gRPC
error with code ResourceExhausted, the ledger client is not called and the
server, with its fallback transaction counter, is unchanged, whether or not
a bank client is configured. -/
theorem C19_rate_limit_denial (env : Env) (fx : Effects) (st : State) (req : ChargeRequest)
    (amount : Money) (card : CreditCardInfo) (cents : Int)
    (hv : PassesValidation req amount card cents) :
    (Charge env fx st req).1.globalRateLimiter
      = some (Allow (GetRateLimiter st.globalRateLimiter) fx.now
          (CardNumberToAccount st.server.accountMapper card.CreditCardNumber).1).1 ∧
    ((Allow (GetRateLimiter st.globalRateLimiter) fx.now
        (CardNumberToAccount st.server.accountMapper card.CreditCardNumber).1).2 = false →
      (Charge env fx st req).2
        = (none, some { code := Code.ResourceExhausted,
                        message := goStr "too many payment requests, please try again later" }) ∧
      (Charge env fx st req).1.ledgerCalls = st.ledgerCalls ∧
      (Charge env fx st req).1.server.transactionCounter = st.server.transactionCounter ∧
      (Charge env fx st req).1.server = st.server) := by
  constructor
  · cases hallow : (Allow (GetRateLimiter st.globalRateLimiter) fx.now
        (payerAccount st card)).2 with
    | false =>
      rw [Charge_denied env fx st req amount card cents hv hallow]
      rfl
    | true =>
      cases hclient : st.server.bankClient with
      | none =>
        rw [Charge_admitted_degraded env fx st req amount card cents hv hallow hclient]
        rfl
      | some client =>
        rw [Charge_admitted_ledger env fx st req amount card cents client hv hallow hclient]
        rfl
  · intro hdeny
    rw [Charge_denied env fx st req amount card cents hv hdeny]
    exact ⟨rfl, rfl, rfl, rfl⟩

end server

namespace server

open converter mapper middleware bank

set_option maxRecDepth 20000

/-- Witness of C19: the example request against a limiter whose entry for the
payer account 5112830366 has used its quota, with and without bank client. -/
theorem C19_rate_limit_denial_witness :
    (Charge (exampleEnv (Transport.response 201 receiptBody)) exampleEffects
        (State.mk (exampleState (some exampleClient)).server (some exhaustedLimiter) [])
        exampleRequest).2
      = (none, some { code := Code.ResourceExhausted,
                      message := goStr "too many payment requests, please try again later" }) ∧
    (Charge (exampleEnv (Transport.response 201 receiptBody)) exampleEffects
        (State.mk (exampleState none).server (some exhaustedLimiter) [])
        exampleRequest).1.server.transactionCounter = 0 :=
  ⟨((C19_rate_limit_denial (exampleEnv (Transport.response 201 receiptBody)) exampleEffects
      (State.mk (exampleState (some exampleClient)).server (some exhaustedLimiter) [])
      exampleRequest (Money.mk 100 0 (goStr "USD"))
      (CreditCardInfo.mk (goStr "4532015112830366")) 10000
      ⟨rfl, rfl, by decide, by decide⟩).2 (by decide)).1,
   ((C19_rate_limit_denial (exampleEnv (Transport.response 201 receiptBody)) exampleEffects
      (State.mk (exampleState none).server (some exhaustedLimiter) [])
      exampleRequest (Money.mk 100 0 (goStr "USD"))
      (CreditCardInfo.mk (goStr "4532015112830366")) 10000
      ⟨rfl, rfl, by decide, by decide⟩).2 (by decide)).2.2.1⟩

/-- C20: ledger-backed charge. For every request that passes validation and
is admitted by the rate limiter, with a ledger client configured, `Charge`
calls `CreateTransaction` exactly once (the trace of ledger calls grows by one
request), with FromAccountNum/FromRoutingNum = CardNumberToAccount(card),
ToAccountNum/ToRoutingNum = GetMerchantAccount(), Amount =
BoutiqueMoneyToCents(amount) and UUID = the freshly generated transaction id;
if the call succeeds, `Charge` returns a response whose TransactionId is that
same UUID, and no error. -/
theorem C20_ledger_backed_charge (env : Env) (fx : Effects) (st : State)
    (req : ChargeRequest) (amount : Money) (card : CreditCardInfo) (cents : Int)
    (client : Client)
    (hv : PassesValidation req amount card cents)
    (hallow : (Allow (GetRateLimiter st.globalRateLimiter) fx.now
      (CardNumberToAccount st.server.accountMapper card.CreditCardNumber).1).2 = true)
    (hclient : st.server.bankClient = some client) :
    (Charge env fx st req).1.ledgerCalls
      = st.ledgerCalls ++
        [{ FromAccountNum :=
             (CardNumberToAccount st.server.accountMapper card.CreditCardNumber).1,
           FromRoutingNum :=
             (CardNumberToAccount st.server.accountMapper card.CreditCardNumber).2,
           ToAccountNum := (GetMerchantAccount st.server.accountMapper).1,
           ToRoutingNum := (GetMerchantAccount st.server.accountMapper).2,
           Amount := (BoutiqueMoneyToCents (some amount)).1,
           UUID := fx.transactionUUID }] ∧
    ((CreateTransaction env client fx.bankNow
        { FromAccountNum :=
            (CardNumberToAccount st.server.accountMapper card.CreditCardNumber).1,
          FromRoutingNum :=
            (CardNumberToAccount st.server.accountMapper card.CreditCardNumber).2,
          ToAccountNum := (GetMerchantAccount st.server.accountMapper).1,
          ToRoutingNum := (GetMerchantAccount st.server.accountMapper).2,
          Amount := (BoutiqueMoneyToCents (some amount)).1,
          UUID := fx.transactionUUID }).2 = none →
      (Charge env fx st req).2 = (some { TransactionId := fx.transactionUUID }, none)) := by
  have hcents : (BoutiqueMoneyToCents (some amount)).1 = cents := by
    rw [hv.2.2.2]
  rw [hcents, Charge_admitted_ledger env fx st req amount card cents client hv hallow hclient]
  refine ⟨rfl, ?_⟩
  intro hok
  have hok' : (CreateTransaction env client fx.bankNow
      (ledgerRequest st card cents fx.transactionUUID)).2 = none := hok
  simp only [hok']
  rfl

/-- Witness of C20: the charge of 100 USD sends Amount 10000 from the account
of the card to the merchant account, and the response carries the generated
transaction id. -/
theorem C20_ledger_backed_charge_witness :
    (Charge (exampleEnv (Transport.response 201 receiptBody)) exampleEffects
        (exampleState (some exampleClient)) exampleRequest).1.ledgerCalls
      = [] ++ [{ FromAccountNum := goStr "5112830366", FromRoutingNum := goStr "123456789",
                 ToAccountNum := goStr "1111111111", ToRoutingNum := goStr "123456789",
                 Amount := 10000, UUID := goStr "123e4567-e89b-42d3-a456-426614174000" }] ∧
    (Charge (exampleEnv (Transport.response 201 receiptBody)) exampleEffects
        (exampleState (some exampleClient)) exampleRequest).2
      = (some { TransactionId := goStr "123e4567-e89b-42d3-a456-426614174000" }, none) :=
  ⟨(C20_ledger_backed_charge (exampleEnv (Transport.response 201 receiptBody)) exampleEffects
      (exampleState (some exampleClient)) exampleRequest (Money.mk 100 0 (goStr "USD"))
      (CreditCardInfo.mk (goStr "4532015112830366")) 10000 exampleClient
      ⟨rfl, rfl, by decide, by decide⟩ (by decide) rfl).1,
   (C20_ledger_backed_charge (exampleEnv (Transport.response 201 receiptBody)) exampleEffects
      (exampleState (some exampleClient)) exampleRequest (Money.mk 100 0 (goStr "USD"))
      (CreditCardInfo.mk (goStr "4532015112830366")) 10000 exampleClient
      ⟨rfl, rfl, by decide, by decide⟩ (by decide) rfl).2 (by decide)⟩

end server

/-! ## Money converter: reverse round trip -/

namespace converter

/-- C26: reverse round trip cents -> Money -> cents on the whole int64 range.
For every int64 c and every currency code,
`BoutiqueMoneyToCents(CentsToBoutiqueMoney(c, cur))` returns c with no error:
the overflow guard does not fire on a Money produced by
`CentsToBoutiqueMoney`. -/
theorem C26_round_trip_cents_money_cents (c : Int) (cur : GoString) (h : isInt64 c) :
    BoutiqueMoneyToCents (some (CentsToBoutiqueMoney c cur)) = (c, none) ∧
    (BoutiqueMoneyToCents (some (CentsToBoutiqueMoney c cur))).2
      ≠ some "money conversion overflow" := by
  have hb := tmod_100_bounds c
  have hq : Int.tdiv (Int.tmod c 100 * 10000000) 10000000 = Int.tmod c 100 :=
    Int.mul_tdiv_cancel _ (by norm_num)
  have hex : exactCents (Money.mk (Int.tdiv c 100) (Int.tmod c 100 * 10000000) cur) = c := by
    unfold exactCents
    simp only
    rw [hq, tmod_eq_sub]
    ring
  have h32 : isInt32 (Int.tmod c 100 * 10000000) := by
    unfold isInt32
    rcases le_or_lt 0 c with h0 | h0
    · have := hb.1 h0
      omega
    · have := hb.2 h0
      omega
  have hres : BoutiqueMoneyToCents (some (CentsToBoutiqueMoney c cur)) = (c, none) := by
    rw [CentsToBoutiqueMoney_closed h]
    have := BoutiqueMoneyToCents_exact
      (Money.mk (Int.tdiv c 100) (Int.tmod c 100 * 10000000) cur)
      h32 (by rw [hex]; exact h)
    rw [hex] at this
    exact this
  refine ⟨hres, ?_⟩
  rw [hres]
  simp

/-- Witness of C26 at the minimum and the maximum int64 and at -50. -/
theorem C26_round_trip_cents_money_cents_witness :
    BoutiqueMoneyToCents (some (CentsToBoutiqueMoney (-9223372036854775808) (goStr "USD")))
      = (-9223372036854775808, none) ∧
    BoutiqueMoneyToCents (some (CentsToBoutiqueMoney 9223372036854775807 (goStr "USD")))
      = (9223372036854775807, none) ∧
    BoutiqueMoneyToCents (some (CentsToBoutiqueMoney (-50) (goStr "USD"))) = (-50, none) :=
  ⟨(C26_round_trip_cents_money_cents (-9223372036854775808) (goStr "USD") (by decide)).1,
   (C26_round_trip_cents_money_cents 9223372036854775807 (goStr "USD") (by decide)).1,
   (C26_round_trip_cents_money_cents (-50) (goStr "USD") (by decide)).1⟩

end converter

/-! ## Account mapper: validated cards -/

namespace mapper

/-- `ValidateCardNumber` accepts exactly the strings that, without spaces and
dashes, have 13 to 19 bytes, all of them decimal digits. -/
theorem ValidateCardNumber_eq_none_iff (s : GoString) :
    ValidateCardNumber s = none ↔
      (13 ≤ (withoutSeparators s).length ∧ (withoutSeparators s).length ≤ 19 ∧
        ∀ b ∈ withoutSeparators s, isDigit b) := by
  unfold ValidateCardNumber
  simp only [cleaned_eq_withoutSeparators]
  by_cases hlen : (withoutSeparators s).length < 13 ∨ (withoutSeparators s).length > 19
  · rw [if_pos hlen]
    constructor
    · intro hc
      exact absurd hc (by simp)
    · rintro ⟨h1, h2, _⟩
      omega
  · rw [if_neg hlen, digitLoop_eq_none_iff _ _ le_rfl]
    constructor
    · intro hall
      exact ⟨by omega, by omega, hall⟩
    · rintro ⟨_, _, hall⟩
      exact hall

/-- For a validated card the account is the last ten digits of the cleaned
card number. -/
theorem CardNumberToAccount_of_valid (m : AccountMapper) (s : GoString)
    (h : ValidateCardNumber s = none) :
    CardNumberToAccount m s =
      ((withoutSeparators s).drop ((withoutSeparators s).length - 10),
        m.DefaultRoutingNumber) ∧
    ((withoutSeparators s).drop ((withoutSeparators s).length - 10)).length = 10 ∧
    ∀ b ∈ (withoutSeparators s).drop ((withoutSeparators s).length - 10), isDigit b := by
  obtain ⟨h13, _, hdig⟩ := (ValidateCardNumber_eq_none_iff s).mp h
  refine ⟨?_, ?_, ?_⟩
  · rw [CardNumberToAccount_closed, if_neg (by omega)]
  · simp only [List.length_drop]
    omega
  · intro b hb
    exact hdig b (List.mem_of_mem_drop hb)

end mapper

/-! ## Ledger client: decision table and error responses -/

namespace bank

theorem IsUnauthorized_iff (e : BankError) : e.IsUnauthorized = true ↔ e.StatusCode = 401 := by
  simp [BankError.IsUnauthorized]

theorem IsInsufficientFunds_iff (e : BankError) :
    e.IsInsufficientFunds = true ↔
      (e.StatusCode = 400 ∧
        (e.ErrorCode = goStr "insufficient_funds" ∨ e.ErrorCode = goStr "INSUFFICIENT_FUNDS" ∨
          e.ErrorCode = goStr "insufficient_balance")) := by
  simp [BankError.IsInsufficientFunds, or_assoc]

theorem IsDuplicateTransaction_iff (e : BankError) :
    e.IsDuplicateTransaction = true ↔
      (e.StatusCode = 409 ∨ e.ErrorCode = goStr "duplicate_transaction" ∨
        e.ErrorCode = goStr "DUPLICATE_TRANSACTION") := by
  simp [BankError.IsDuplicateTransaction, or_assoc]

/-- `ToGRPCError` returns a status whose code is the one of the decision
table. -/
theorem ToGRPCError_code (e : BankError) :
    ∃ msg, e.ToGRPCError
      = some { code := decisionTable e.StatusCode e.ErrorCode, message := msg } := by
  unfold BankError.ToGRPCError decisionTable
  simp only [IsUnauthorized_iff, IsInsufficientFunds_iff, IsDuplicateTransaction_iff]
  split_ifs <;> exact ⟨_, statusError_of_ne_OK _ _ (by decide)⟩

/-- C24: `ToGRPCError` is the first-match decision table over (StatusCode,
ErrorCode): status 401 -> Unauthenticated; else status 400 with ErrorCode in
{"insufficient_funds", "INSUFFICIENT_FUNDS", "insufficient_balance"} ->
FailedPrecondition; else status 409 or ErrorCode in {"duplicate_transaction",
"DUPLICATE_TRANSACTION"} -> AlreadyExists; else 400 <= status < 500 ->
InvalidArgument; else status >= 500 -> Internal; else Unknown. The table is
total (a status is always returned), and `HandleBankError` agrees with it on
every BankError, returns nil for a nil error and Internal for any other
error. -/
theorem C24_decision_table (e : BankError) :
    (∃ msg, e.ToGRPCError
      = some { code := decisionTable e.StatusCode e.ErrorCode, message := msg }) ∧
    e.ToGRPCError ≠ none ∧
    HandleBankError (some (ErrorValue.bankError e)) = e.ToGRPCError ∧
    HandleBankError none = none ∧
    (∀ text, ∃ msg, HandleBankError (some (ErrorValue.other text))
      = some { code := Code.Internal, message := msg }) ∧
    (BankError.mk 400 (goStr "insufficient_funds")
        (goStr "Account has insufficient funds")).ToGRPCError
      = some { code := Code.FailedPrecondition,
               message := goStr "insufficient funds in account" } := by
  obtain ⟨msg, hmsg⟩ := ToGRPCError_code e
  refine ⟨⟨msg, hmsg⟩, ?_, rfl, rfl, fun text => ⟨_, HandleBankError_other text⟩, by decide⟩
  rw [hmsg]
  simp

/-- Classification of a response whose status is neither 200 nor 201. -/
theorem classifyResponse_error (env : Env) (now : Int) (req : TransactionRequest)
    (status : Int) (body : GoString) (hs : status ≠ 200 ∧ status ≠ 201) :
    (∀ er, env.UnmarshalErrorResponse body = Except.ok er → er.Error ≠ [] →
      classifyResponse env now req status body
        = (none, some (ErrorValue.bankError (BankError.mk status er.Error er.Message)))) ∧
    ((∀ er, env.UnmarshalErrorResponse body = Except.ok er → er.Error = []) →
      classifyResponse env now req status body
        = (none, some (ErrorValue.bankError
            (BankError.mk status (goStr "transaction_failed") body)))) := by
  have hcond : status ≠ 201 ∧ status ≠ 200 := ⟨hs.2, hs.1⟩
  constructor
  · intro er hp hne
    unfold classifyResponse
    rw [if_pos hcond, hp]
    simp only [if_pos hne]
    rfl
  · intro hall
    unfold classifyResponse
    rw [if_pos hcond]
    cases hp : env.UnmarshalErrorResponse body with
    | error err => rfl
    | ok er =>
      have hem := hall er hp
      simp only [hem, ne_eq, not_true_eq_false, if_false]
      rfl

end bank

/-! ## Rate limiter: sweep and counter invariant -/

namespace middleware

/-- C23: one sweep of the rate limiter at time now removes exactly the
entries whose reset time plus 2 minutes is strictly before now, and leaves
every other entry (key, count and reset time) unchanged; in particular no
entry whose window is still open (now not after its reset time) is
removed. -/
theorem C23_sweep_removes_exactly_stale (rl : RateLimiter) (now : Time) (k : GoString) :
    (∀ e, rl.limits k = some e → e.resetTime + 120000000000 < now →
      (cleanup rl now).limits k = none) ∧
    (∀ e, rl.limits k = some e → ¬ (e.resetTime + 120000000000 < now) →
      (cleanup rl now).limits k = some e) ∧
    (rl.limits k = none → (cleanup rl now).limits k = none) ∧
    (∀ e, rl.limits k = some e → now ≤ e.resetTime → (cleanup rl now).limits k = some e) ∧
    (cleanup rl now).maxPerMinute = rl.maxPerMinute := by
  have hstale : ∀ e, rl.limits k = some e → e.resetTime + 120000000000 < now →
      (cleanup rl now).limits k = none := by
    intro e h hlt
    unfold cleanup
    simp only [h]
    rw [if_pos]
    unfold Minute
    linarith
  have hkeep : ∀ e, rl.limits k = some e → ¬ (e.resetTime + 120000000000 < now) →
      (cleanup rl now).limits k = some e := by
    intro e h hlt
    unfold cleanup
    simp only [h]
    rw [if_neg]
    unfold Minute
    linarith
  refine ⟨hstale, hkeep, ?_, ?_, rfl⟩
  · intro h
    unfold cleanup
    simp only [h]
  · intro e h hopen
    exact hkeep e h (by linarith)

/-- Witness of C23: the entry with reset time 100 is kept by a sweep at
100 + 2 minutes and removed by a sweep one nanosecond later. -/
theorem C23_sweep_removes_exactly_stale_witness :
    (cleanup exhaustedLimiter 120000000100).limits (goStr "5112830366")
      = some (accountLimit.mk 3 100) ∧
    (cleanup exhaustedLimiter 120000000101).limits (goStr "5112830366") = none :=
  ⟨(C23_sweep_removes_exactly_stale exhaustedLimiter 120000000100 (goStr "5112830366")).2.1
      (accountLimit.mk 3 100) (by decide) (by decide),
   (C23_sweep_removes_exactly_stale exhaustedLimiter 120000000101 (goStr "5112830366")).1
      (accountLimit.mk 3 100) (by decide) (by decide)⟩

theorem NewRateLimiter_countsWithinQuota (q : Int) : countsWithinQuota (NewRateLimiter q) := by
  intro k e h
  cases h

/-- `Allow` keeps every count between 1 and the quota, for a quota >= 1. -/
theorem Allow_countsWithinQuota (rl : RateLimiter) (now : Time) (k : GoString)
    (hq : 1 ≤ rl.maxPerMinute) (h64 : isInt64 rl.maxPerMinute)
    (hinv : countsWithinQuota rl) : countsWithinQuota (Allow rl now k).1 := by
  intro k' e' h'
  rw [Allow_maxPerMinute]
  by_cases hk : k' = k
  · subst hk
    cases hl : rl.limits k' with
    | none =>
      rw [Allow_fresh rl k' now hl] at h'
      simp only [Table.store_same, Option.some.injEq] at h'
      subst h'
      exact ⟨le_refl 1, hq⟩
    | some e =>
      have hb := hinv k' e hl
      by_cases hexp : now > e.resetTime
      · rw [Allow_after_window rl k' now e hl hexp] at h'
        simp only [Table.store_same, Option.some.injEq] at h'
        subst h'
        exact ⟨le_refl 1, hq⟩
      · by_cases hlt : e.count < rl.maxPerMinute
        · have hc : isInt64 e.count := by
            unfold isInt64 at *
            omega
          rw [Allow_in_window_below rl k' now e hl (not_lt.mp hexp) hlt hc h64] at h'
          simp only [Table.store_same, Option.some.injEq] at h'
          subst h'
          simp only
          omega
        · rw [Allow_in_window_full rl k' now e hl (not_lt.mp hexp) hlt] at h'
          simp only at h'
          rw [hl] at h'
          cases h'
          exact hb
  · rw [Allow_frame rl now k k' hk] at h'
    exact hinv k' e' h'

/-- A sweep keeps every count between 1 and the quota. -/
theorem cleanup_countsWithinQuota (rl : RateLimiter) (now : Time)
    (hinv : countsWithinQuota rl) : countsWithinQuota (cleanup rl now) := by
  intro k e h
  unfold cleanup at h
  simp only at h
  cases hl : rl.limits k with
  | none =>
    rw [hl] at h
    cases h
  | some e0 =>
    rw [hl] at h
    simp only at h
    split_ifs at h
    cases h
    exact hinv k e hl

theorem Op.run_maxPerMinute (rl : RateLimiter) (op : Op) :
    (op.run rl).maxPerMinute = rl.maxPerMinute := by
  cases op with
  | allow now k => exact Allow_maxPerMinute rl now k
  | getRemaining now k =>
    show (GetRemaining rl now k).1.maxPerMinute = rl.maxPerMinute
    rw [GetRemaining_state]
  | sweep now => rfl

theorem Op.run_countsWithinQuota (rl : RateLimiter) (op : Op)
    (hq : 1 ≤ rl.maxPerMinute) (h64 : isInt64 rl.maxPerMinute)
    (hinv : countsWithinQuota rl) : countsWithinQuota (op.run rl) := by
  cases op with
  | allow now k => exact Allow_countsWithinQuota rl now k hq h64 hinv
  | getRemaining now k =>
    show countsWithinQuota (GetRemaining rl now k).1
    rw [GetRemaining_state]
    exact hinv
  | sweep now => exact cleanup_countsWithinQuota rl now hinv

/-- Every sequence of steps keeps the quota and the counter invariant. -/
theorem runOps_invariant (ops : List Op) :
    ∀ rl : RateLimiter, 1 ≤ rl.maxPerMinute → isInt64 rl.maxPerMinute →
      countsWithinQuota rl →
      (runOps rl ops).maxPerMinute = rl.maxPerMinute ∧ countsWithinQuota (runOps rl ops) := by
  induction ops with
  | nil =>
    intro rl _ _ hinv
    exact ⟨rfl, hinv⟩
  | cons op rest ih =>
    intro rl hq h64 hinv
    have hm := Op.run_maxPerMinute rl op
    have := ih (op.run rl) (by rw [hm]; exact hq) (by rw [hm]; exact h64)
      (Op.run_countsWithinQuota rl op hq h64 hinv)
    rw [hm] at this
    exact this

/-- With counts between 1 and the quota, `GetRemaining` lies between 0 and
the quota. -/
theorem GetRemaining_range (rl : RateLimiter) (now : Time) (k : GoString)
    (hq : 1 ≤ rl.maxPerMinute) (h64 : isInt64 rl.maxPerMinute)
    (hinv : countsWithinQuota rl) :
    0 ≤ (GetRemaining rl now k).2 ∧ (GetRemaining rl now k).2 ≤ rl.maxPerMinute := by
  refine ⟨GetRemaining_nonneg rl now k (by omega), ?_⟩
  unfold GetRemaining
  cases hl : rl.limits k with
  | none => exact le_refl _
  | some e =>
    have hb := hinv k e hl
    have hw : wrapInt64 (rl.maxPerMinute - e.count) = rl.maxPerMinute - e.count := by
      apply wrapInt64_of_isInt64
      unfold isInt64 at *
      omega
    simp only [hw]
    split_ifs
    · exact le_refl _
    · simp only
      omega
    · simp only
      omega

/-- C28: counter invariant of the rate limiter. For every limiter created
with quota Q >= 1 (an int), in every table state reachable from the empty
table by any sequence of `Allow`, `GetRemaining` and `cleanup` steps at
arbitrary times, every entry satisfies 1 <= count <= Q; consequently
`GetRemaining` on such a limiter always lies in [0, Q]. -/
theorem C28_counter_invariant (q : Int) (hq : 1 ≤ q) (h64 : isInt64 q) (ops : List Op) :
    (∀ k e, (runOps (NewRateLimiter q) ops).limits k = some e → 1 ≤ e.count ∧ e.count ≤ q) ∧
    (∀ k now, 0 ≤ (GetRemaining (runOps (NewRateLimiter q) ops) now k).2 ∧
      (GetRemaining (runOps (NewRateLimiter q) ops) now k).2 ≤ q) := by
  have hinv := runOps_invariant ops (NewRateLimiter q) hq h64 (NewRateLimiter_countsWithinQuota q)
  have hm : (runOps (NewRateLimiter q) ops).maxPerMinute = q := hinv.1
  constructor
  · intro k e h
    have := hinv.2 k e h
    rw [hm] at this
    exact this
  · intro k now
    have := GetRemaining_range (runOps (NewRateLimiter q) ops) now k
      (by rw [hm]; exact hq) (by rw [hm]; exact h64) hinv.2
    rw [hm] at this
    exact this

/-- Witness of C28 for Q = 3: after four `Allow` calls, a read and a sweep
the count of the key is 3 and `GetRemaining` is 0. -/
theorem C28_counter_invariant_witness :
    (∀ k e, (runOps (NewRateLimiter 3)
        [Op.allow 0 (goStr "5112830366"), Op.allow 1 (goStr "5112830366"),
         Op.allow 2 (goStr "5112830366"), Op.allow 3 (goStr "5112830366"),
         Op.getRemaining 4 (goStr "5112830366"), Op.sweep 5]).limits k = some e →
      1 ≤ e.count ∧ e.count ≤ 3) ∧
    (GetRemaining (runOps (NewRateLimiter 3)
        [Op.allow 0 (goStr "5112830366"), Op.allow 1 (goStr "5112830366"),
         Op.allow 2 (goStr "5112830366"), Op.allow 3 (goStr "5112830366"),
         Op.getRemaining 4 (goStr "5112830366"), Op.sweep 5]) 6 (goStr "5112830366")).2 = 0 :=
  ⟨(C28_counter_invariant 3 (by decide) (by decide)
      [Op.allow 0 (goStr "5112830366"), Op.allow 1 (goStr "5112830366"),
       Op.allow 2 (goStr "5112830366"), Op.allow 3 (goStr "5112830366"),
       Op.getRemaining 4 (goStr "5112830366"), Op.sweep 5]).1,
   by decide⟩

end middleware

/-! ## Charge orchestrator: degraded mode, error responses, validated cards -/

namespace server

open converter mapper middleware bank

set_option maxRecDepth 20000

/-- No identifier that starts with "SIM-" has the UUID format: `S` is not a
hexadecimal digit. -/
theorem not_isUUIDFormat_SIM (rest : GoString) :
    isUUIDFormat (goStr "SIM-" ++ rest) = false := rfl

/-- After validation `Charge` leaves in `globalRateLimiter` the limiter that
`Allow` returns for the payer account. -/
theorem Charge_limiter_after (env : Env) (fx : Effects) (st : State) (req : ChargeRequest)
    (amount : Money) (card : CreditCardInfo) (cents : Int)
    (hv : PassesValidation req amount card cents) :
    (Charge env fx st req).1.globalRateLimiter
      = some (Allow (GetRateLimiter st.globalRateLimiter) fx.now (payerAccount st card)).1 := by
  cases hallow : (Allow (GetRateLimiter st.globalRateLimiter) fx.now
      (payerAccount st card)).2 with
  | false =>
    rw [Charge_denied env fx st req amount card cents hv hallow]
  | true =>
    cases hclient : st.server.bankClient with
    | none =>
      rw [Charge_admitted_degraded env fx st req amount card cents hv hallow hclient]
    | some client =>
      rw [Charge_admitted_ledger env fx st req amount card cents client hv hallow hclient]

/-- C21: degraded mode. When no ledger client is configured, every request
that passes validation and is admitted by the rate limiter succeeds; the
fallback transaction counter is incremented by 1 (the int64 increment of Go,
which is exactly +1 below the maximum int64) and the returned TransactionId
is the string "SIM-<unix seconds>-<new counter value>", which starts with
"SIM-" and therefore is never equal to a UUID-format identifier, the kind a
ledger-backed charge returns; the ledger is not called. -/
theorem C21_degraded_mode (env : Env) (fx : Effects) (st : State) (req : ChargeRequest)
    (amount : Money) (card : CreditCardInfo) (cents : Int)
    (hv : PassesValidation req amount card cents)
    (hallow : (Allow (GetRateLimiter st.globalRateLimiter) fx.now (payerAccount st card)).2
      = true)
    (hclient : st.server.bankClient = none) :
    (Charge env fx st req).2
      = (some { TransactionId := goStr "SIM-" ++ formatInt fx.unixNow ++ goStr "-"
                  ++ formatInt (Charge env fx st req).1.server.transactionCounter }, none) ∧
    (Charge env fx st req).1.server.transactionCounter
      = wrapInt64 (st.server.transactionCounter + 1) ∧
    (isInt64 (st.server.transactionCounter + 1) →
      (Charge env fx st req).1.server.transactionCounter = st.server.transactionCounter + 1) ∧
    (∃ rest, goStr "SIM-" ++ formatInt fx.unixNow ++ goStr "-"
        ++ formatInt (Charge env fx st req).1.server.transactionCounter
      = goStr "SIM-" ++ rest) ∧
    (∀ u, isUUIDFormat u = true →
      goStr "SIM-" ++ formatInt fx.unixNow ++ goStr "-"
        ++ formatInt (Charge env fx st req).1.server.transactionCounter ≠ u) ∧
    (Charge env fx st req).1.ledgerCalls = st.ledgerCalls := by
  rw [Charge_admitted_degraded env fx st req amount card cents hv hallow hclient]
  refine ⟨rfl, rfl, fun hfit => wrapInt64_of_isInt64 hfit, ?_, ?_, rfl⟩
  · exact ⟨_, by rw [List.append_assoc, List.append_assoc]⟩
  · intro u hu heq
    rw [← heq, List.append_assoc, List.append_assoc, not_isUUIDFormat_SIM] at hu
    cases hu

/-- Witness of C21: the example charge without bank client returns
"SIM-1700000000-1" and sets the counter to 1; the identifier of the
ledger-backed example has the UUID format. -/
theorem C21_degraded_mode_witness :
    (Charge (exampleEnv (Transport.response 201 receiptBody)) exampleEffects
        (exampleState none) exampleRequest).2
      = (some { TransactionId := goStr "SIM-" ++ formatInt 1700000000 ++ goStr "-"
                  ++ formatInt (Charge (exampleEnv (Transport.response 201 receiptBody))
                      exampleEffects (exampleState none)
                      exampleRequest).1.server.transactionCounter }, none) ∧
    (Charge (exampleEnv (Transport.response 201 receiptBody)) exampleEffects
        (exampleState none) exampleRequest).2
      = (some { TransactionId := goStr "SIM-1700000000-1" }, none) ∧
    isUUIDFormat exampleEffects.transactionUUID = true :=
  ⟨(C21_degraded_mode (exampleEnv (Transport.response 201 receiptBody)) exampleEffects
      (exampleState none) exampleRequest (Money.mk 100 0 (goStr "USD"))
      (CreditCardInfo.mk (goStr "4532015112830366")) 10000
      ⟨rfl, rfl, by decide, by decide⟩ (by decide) rfl).1,
   by decide, by decide⟩

/-- C25: for every ledger response whose status is neither 200 nor 201,
`CreateTransaction` returns no receipt and a BankError whose StatusCode is
the response status: if the body parses as an error object with a non-empty
`error` field, ErrorCode and Message are that object's `error` and
`message`; otherwise ErrorCode is "transaction_failed" and Message is the raw
body text. -/
theorem C25_error_response (env : Env) (c : Client) (now : Int) (req : TransactionRequest)
    (status : Int) (body : GoString)
    (hx : exchange env c req = some (Transport.response status body))
    (hs : status ≠ 200 ∧ status ≠ 201) :
    (∀ er, env.UnmarshalErrorResponse body = Except.ok er → er.Error ≠ [] →
      CreateTransaction env c now req
        = (none, some (ErrorValue.bankError (BankError.mk status er.Error er.Message)))) ∧
    ((∀ er, env.UnmarshalErrorResponse body = Except.ok er → er.Error = []) →
      CreateTransaction env c now req
        = (none, some (ErrorValue.bankError
            (BankError.mk status (goStr "transaction_failed") body)))) := by
  rw [CreateTransaction_of_exchange env c now req _ hx]
  unfold transportResult
  exact classifyResponse_error env now req status body hs

/-- Witness of C25: the insufficient-funds response of the tests (status 400
with an error object), and a 503 whose body is not an error object. -/
theorem C25_error_response_witness :
    CreateTransaction (exampleErrorEnv (Transport.response 400 insufficientFundsBody))
        exampleClient 1 exampleLedgerRequest
      = (none, some (ErrorValue.bankError (BankError.mk 400 (goStr "insufficient_funds")
          (goStr "Account has insufficient funds")))) ∧
    CreateTransaction (exampleErrorEnv (Transport.response 503 (goStr "unavailable")))
        exampleClient 1 exampleLedgerRequest
      = (none, some (ErrorValue.bankError (BankError.mk 503 (goStr "transaction_failed")
          (goStr "unavailable")))) :=
  ⟨(C25_error_response (exampleErrorEnv (Transport.response 400 insufficientFundsBody))
      exampleClient 1 exampleLedgerRequest 400 insufficientFundsBody (by decide)
      (by decide)).1
      { Error := goStr "insufficient_funds", Message := goStr "Account has insufficient funds",
        Code := 0 }
      (by unfold exampleErrorEnv; simp only [if_pos]) (by decide),
   (C25_error_response (exampleErrorEnv (Transport.response 503 (goStr "unavailable")))
      exampleClient 1 exampleLedgerRequest 503 (goStr "unavailable") (by decide)
      (by decide)).2
      (fun er h => by
        unfold exampleErrorEnv at h
        simp only at h
        rw [if_neg (by decide)] at h
        cases h)⟩

/-- C27: validation implies a well-formed payer account. For every mapper and
every card string s for which `ValidateCardNumber(s)` returns nil,
`CardNumberToAccount(s)` returns an account of exactly 10 characters, all
decimal digits, equal to the last 10 digits of s with separators removed; the
merchant-account fallback branch (cleaned length below 10) is not taken, so
in `Charge` the payer account, which is the rate-limit key, of a request that
passes validation is those last 10 digits and never the fallback. -/
theorem C27_validated_card_account (m : AccountMapper) (s : GoString)
    (h : ValidateCardNumber s = none) :
    (CardNumberToAccount m s).1.length = 10 ∧
    (∀ b ∈ (CardNumberToAccount m s).1, isDigit b) ∧
    (CardNumberToAccount m s).1
      = (withoutSeparators s).drop ((withoutSeparators s).length - 10) ∧
    (CardNumberToAccount m s).2 = m.DefaultRoutingNumber ∧
    ¬ ((cleaned s).length < 10) ∧
    (∀ (env : Env) (fx : Effects) (st : State) (req : ChargeRequest) (amount : Money)
      (card : CreditCardInfo) (cents : Int),
      PassesValidation req amount card cents → card.CreditCardNumber = s →
      payerAccount st card = (withoutSeparators s).drop ((withoutSeparators s).length - 10) ∧
      (Charge env fx st req).1.globalRateLimiter
        = some (Allow (GetRateLimiter st.globalRateLimiter) fx.now
            ((withoutSeparators s).drop ((withoutSeparators s).length - 10))).1) := by
  obtain ⟨hacc, hlen, hdig⟩ := CardNumberToAccount_of_valid m s h
  obtain ⟨h13, _, _⟩ := (ValidateCardNumber_eq_none_iff s).mp h
  rw [hacc]
  refine ⟨hlen, hdig, rfl, rfl, ?_, ?_⟩
  · rw [cleaned_eq_withoutSeparators]
    omega
  · intro env fx st req amount card cents hv hcard
    have hp : payerAccount st card
        = (withoutSeparators s).drop ((withoutSeparators s).length - 10) := by
      unfold payerAccount
      rw [hcard, (CardNumberToAccount_of_valid st.server.accountMapper s h).1]
    refine ⟨hp, ?_⟩
    rw [Charge_limiter_after env fx st req amount card cents hv, hp]

/-- Witness of C27: the validated card 4532-0151-1283-0366 gives the account
5112830366. -/
theorem C27_validated_card_account_witness :
    (CardNumberToAccount (NewAccountMapper (goStr "5112830366") [])
        (goStr "4532-0151-1283-0366")).1.length = 10 ∧
    (CardNumberToAccount (NewAccountMapper (goStr "5112830366") [])
        (goStr "4532-0151-1283-0366")).1 = goStr "5112830366" :=
  ⟨(C27_validated_card_account (NewAccountMapper (goStr "5112830366") [])
      (goStr "4532-0151-1283-0366") (by decide)).1,
   by decide⟩

end server

/-! ## Rate limiter: transparency of the sweep -/

namespace middleware

theorem runCalls_allow (rl : RateLimiter) (now : Time) (k : GoString) (rest : List Call) :
    runCalls rl (Call.allow now k :: rest) =
      ((runCalls (Allow rl now k).1 rest).1,
        Outcome.allowed (Allow rl now k).2 :: (runCalls (Allow rl now k).1 rest).2) := rfl

theorem runCalls_getRemaining (rl : RateLimiter) (now : Time) (k : GoString)
    (rest : List Call) :
    runCalls rl (Call.getRemaining now k :: rest) =
      ((runCalls (GetRemaining rl now k).1 rest).1,
        Outcome.remaining (GetRemaining rl now k).2 ::
          (runCalls (GetRemaining rl now k).1 rest).2) := rfl

/-- The result of `Allow` and the entry it leaves for the key depend only on
the entry of the key and on the quota. -/
theorem Allow_congr (rl1 rl2 : RateLimiter) (now : Time) (k : GoString)
    (hq : rl1.maxPerMinute = rl2.maxPerMinute) (hk : rl1.limits k = rl2.limits k) :
    (Allow rl1 now k).2 = (Allow rl2 now k).2 ∧
    (Allow rl1 now k).1.limits k = (Allow rl2 now k).1.limits k := by
  unfold Allow
  rw [hk, hq]
  cases rl2.limits k with
  | none => exact ⟨rfl, by simp only [Table.store_same]⟩
  | some e =>
    simp only
    split_ifs
    · exact ⟨rfl, by simp only [Table.store_same]⟩
    · exact ⟨rfl, by simp only [Table.store_same]⟩
    · exact ⟨rfl, by rw [hk]⟩

/-- The result of `GetRemaining` depends only on the entry of the key and on
the quota. -/
theorem GetRemaining_congr (rl1 rl2 : RateLimiter) (now : Time) (k : GoString)
    (hq : rl1.maxPerMinute = rl2.maxPerMinute) (hk : rl1.limits k = rl2.limits k) :
    (GetRemaining rl1 now k).2 = (GetRemaining rl2 now k).2 := by
  unfold GetRemaining
  rw [hk, hq]
  cases rl2.limits k with
  | none => rfl
  | some e =>
    simp only
    split_ifs <;> rfl

/-- A sweep at `t0` leaves a limiter that agrees with the original up to
entries whose reset time is before `t0`. -/
theorem agreeUpToStale_cleanup (rl : RateLimiter) (t0 : Time) :
    agreeUpToStale t0 rl (cleanup rl t0) := by
  refine ⟨rfl, ?_⟩
  intro k
  unfold cleanup
  simp only
  cases hl : rl.limits k with
  | none => exact Or.inl rfl
  | some e =>
    simp only
    by_cases hst : t0 > e.resetTime + 2 * Minute
    · rw [if_pos hst]
      refine Or.inr ⟨rfl, e, rfl, ?_⟩
      unfold Minute at hst
      linarith
    · rw [if_neg hst]
      exact Or.inl rfl

/-- A call of `Allow` at or after `t0` gives the same result on two limiters
that agree up to stale entries, and keeps them in agreement. -/
theorem agreeUpToStale_Allow (t0 : Time) (rl1 rl2 : RateLimiter) (now : Time) (k : GoString)
    (hnow : t0 ≤ now) (h : agreeUpToStale t0 rl1 rl2) :
    (Allow rl1 now k).2 = (Allow rl2 now k).2 ∧
    agreeUpToStale t0 (Allow rl1 now k).1 (Allow rl2 now k).1 := by
  obtain ⟨hq, htab⟩ := h
  have hkey : (Allow rl1 now k).2 = (Allow rl2 now k).2 ∧
      (Allow rl1 now k).1.limits k = (Allow rl2 now k).1.limits k := by
    rcases htab k with heq | ⟨hnone, e, hsome, hstale⟩
    · exact Allow_congr rl1 rl2 now k hq heq
    · rw [Allow_after_window rl1 k now e hsome (by linarith), Allow_fresh rl2 k now hnone, hq]
      exact ⟨rfl, by simp only [Table.store_same]⟩
  refine ⟨hkey.1, ?_, ?_⟩
  · rw [Allow_maxPerMinute, Allow_maxPerMinute]
    exact hq
  · intro k'
    by_cases hk : k' = k
    · subst hk
      exact Or.inl hkey.2
    · rw [Allow_frame rl1 now k k' hk, Allow_frame rl2 now k k' hk]
      exact htab k'

/-- A call of `GetRemaining` at or after `t0` gives the same result on two
limiters that agree up to stale entries. -/
theorem agreeUpToStale_GetRemaining (t0 : Time) (rl1 rl2 : RateLimiter) (now : Time)
    (k : GoString) (hnow : t0 ≤ now) (h : agreeUpToStale t0 rl1 rl2) :
    (GetRemaining rl1 now k).2 = (GetRemaining rl2 now k).2 := by
  obtain ⟨hq, htab⟩ := h
  rcases htab k with heq | ⟨hnone, e, hsome, hstale⟩
  · exact GetRemaining_congr rl1 rl2 now k hq heq
  · unfold GetRemaining
    rw [hsome, hnone]
    simp only
    rw [if_pos (by linarith), hq]

/-- Calls at or after `t0` cannot tell apart two limiters that agree up to
stale entries. -/
theorem runCalls_agreeUpToStale (t0 : Time) (calls : List Call) :
    ∀ rl1 rl2 : RateLimiter, agreeUpToStale t0 rl1 rl2 → (∀ c ∈ calls, t0 ≤ c.time) →
      (runCalls rl1 calls).2 = (runCalls rl2 calls).2 ∧
      agreeUpToStale t0 (runCalls rl1 calls).1 (runCalls rl2 calls).1 := by
  induction calls with
  | nil =>
    intro rl1 rl2 h _
    exact ⟨rfl, h⟩
  | cons c rest ih =>
    intro rl1 rl2 h htimes
    have hrest : ∀ c' ∈ rest, t0 ≤ c'.time := fun c' hc' =>
      htimes c' (List.mem_cons_of_mem c hc')
    have hc := htimes c (List.mem_cons_self c rest)
    cases c with
    | allow now k =>
      have hstep := agreeUpToStale_Allow t0 rl1 rl2 now k hc h
      have hih := ih (Allow rl1 now k).1 (Allow rl2 now k).1 hstep.2 hrest
      rw [runCalls_allow, runCalls_allow, hstep.1, hih.1]
      exact ⟨rfl, hih.2⟩
    | getRemaining now k =>
      have hres := agreeUpToStale_GetRemaining t0 rl1 rl2 now k hc h
      have hih := ih (GetRemaining rl1 now k).1 (GetRemaining rl2 now k).1
        (by rw [GetRemaining_state, GetRemaining_state]; exact h) hrest
      rw [runCalls_getRemaining, runCalls_getRemaining, hres, hih.1]
      exact ⟨rfl, hih.2⟩

/-- C29: the background sweep is observationally transparent. For every
limiter state and time t0, and every later sequence of `Allow` /
`GetRemaining` calls at times >= t0 (non-decreasing or not), the sequence of
results is the same whether or not a cleanup step is run at t0, and the two
final tables agree on every entry whose window is still open at t0 or later
(reset time >= t0); every entry of the swept run is an entry of the other
run. -/
theorem C29_sweep_is_transparent (rl : RateLimiter) (t0 : Time) (calls : List Call)
    (htimes : ∀ c ∈ calls, t0 ≤ c.time) :
    (runCalls (cleanup rl t0) calls).2 = (runCalls rl calls).2 ∧
    (∀ k e, (runCalls rl calls).1.limits k = some e → t0 ≤ e.resetTime →
      (runCalls (cleanup rl t0) calls).1.limits k = some e) ∧
    (∀ k e, (runCalls (cleanup rl t0) calls).1.limits k = some e →
      (runCalls rl calls).1.limits k = some e) := by
  obtain ⟨hres, _, htab⟩ :=
    runCalls_agreeUpToStale t0 calls rl (cleanup rl t0) (agreeUpToStale_cleanup rl t0) htimes
  refine ⟨hres.symm, ?_, ?_⟩
  · intro k e he hopen
    rcases htab k with heq | ⟨_, e', hsome, hstale⟩
    · rw [← heq]
      exact he
    · rw [he] at hsome
      cases hsome
      exact absurd hstale (by linarith)
  · intro k e he
    rcases htab k with heq | ⟨hnone, _⟩
    · rw [heq]
      exact he
    · rw [hnone] at he
      cases he

end middleware

namespace middleware

/-- Witness data of C29: a limiter whose only entry went stale long before
the sweep, and calls after the sweep. -/
theorem C29_sweep_is_transparent_witness :
    (runCalls (cleanup exhaustedLimiter 120000000200)
        [Call.getRemaining 120000000200 (goStr "5112830366"),
         Call.allow 120000000201 (goStr "5112830366"),
         Call.getRemaining 120000000202 (goStr "5112830366")]).2
      = (runCalls exhaustedLimiter
        [Call.getRemaining 120000000200 (goStr "5112830366"),
         Call.allow 120000000201 (goStr "5112830366"),
         Call.getRemaining 120000000202 (goStr "5112830366")]).2 ∧
    (runCalls exhaustedLimiter
        [Call.getRemaining 120000000200 (goStr "5112830366"),
         Call.allow 120000000201 (goStr "5112830366"),
         Call.getRemaining 120000000202 (goStr "5112830366")]).2
      = [Outcome.remaining 3, Outcome.allowed true, Outcome.remaining 2] :=
  ⟨(C29_sweep_is_transparent exhaustedLimiter 120000000200
      [Call.getRemaining 120000000200 (goStr "5112830366"),
       Call.allow 120000000201 (goStr "5112830366"),
       Call.getRemaining 120000000202 (goStr "5112830366")]
      (by decide)).1,
   by decide⟩

/-! ### Burst bound -/

theorem allowedIn_cons (a b t : Time) (ts : List Time) (r : Bool) (rs : List Bool) :
    allowedIn a b (t :: ts) (r :: rs)
      = (if r = true ∧ a ≤ t ∧ t ≤ b then 1 else 0) + allowedIn a b ts rs := rfl

/-- Calls after the end of the interval do not count. -/
theorem allowedIn_eq_zero (a b : Time) :
    ∀ (ts : List Time) (rs : List Bool), (∀ t ∈ ts, b < t) → allowedIn a b ts rs = 0 := by
  intro ts
  induction ts with
  | nil =>
    intro rs _
    rfl
  | cons t rest ih =>
    intro rs h
    cases rs with
    | nil => rfl
    | cons r rs' =>
      rw [allowedIn_cons, ih rs' (fun t' ht' => h t' (List.mem_cons_of_mem t ht'))]
      have ht := h t (List.mem_cons_self t rest)
      rw [if_neg (by rintro ⟨_, _, hle⟩; linarith)]

/-- The bound is never negative for an entry within the quota. -/
theorem burstBound_nonneg (q : Int) (a b : Time) (hq : 1 ≤ q) (o : Option accountLimit)
    (h : ∀ e, o = some e → 1 ≤ e.count ∧ e.count ≤ q) : 0 ≤ burstBound q a b o := by
  cases o with
  | none =>
    show 0 ≤ 2 * q - 1
    omega
  | some e =>
    have := h e rfl
    unfold burstBound
    simp only
    split_ifs <;> omega

/-- The bound never exceeds one call short of two quotas. -/
theorem burstBound_le (q : Int) (a b : Time) (hq : 1 ≤ q) (o : Option accountLimit)
    (h : ∀ e, o = some e → 1 ≤ e.count ∧ e.count ≤ q) : burstBound q a b o ≤ 2 * q - 1 := by
  cases o with
  | none =>
    show 2 * q - 1 ≤ 2 * q - 1
    omega
  | some e =>
    have := h e rfl
    unfold burstBound
    simp only
    split_ifs <;> omega

/-- The bound right after a call at `t <= b` has opened a window: if the call
lies in the interval the new window covers the rest of the interval. -/
theorem burstBound_opened (q : Int) (a b t : Time) (hq : 1 ≤ q) (hab : b ≤ a + Minute) :
    (a ≤ t → burstBound q a b (some (accountLimit.mk 1 (t + Minute))) = q - 1) ∧
    burstBound q a b (some (accountLimit.mk 1 (t + Minute))) ≤ 2 * q - 1 := by
  constructor
  · intro ha
    unfold burstBound
    simp only
    rw [if_pos (by linarith)]
  · exact burstBound_le q a b hq _ (fun e he => by
      cases he
      exact ⟨le_refl 1, hq⟩)

end middleware

namespace middleware

theorem opened_counts (rl : RateLimiter) (k : GoString) (t : Time) (q : Int) (hq : 1 ≤ q) :
    ∀ e, (RateLimiter.mk (rl.limits.store k (accountLimit.mk 1 (t + Minute)))
        rl.maxPerMinute).limits k = some e → 1 ≤ e.count ∧ e.count ≤ q := by
  intro e he
  have h1 : some (accountLimit.mk 1 (t + Minute)) = some e := by
    rw [← he]
    exact (Table.store_same _ _ _).symm
  cases h1
  exact ⟨le_refl 1, hq⟩

/-- Main induction of the burst bound: from a state whose entry for the key is
within the quota, the calls of a non-decreasing sequence that return true at
instants of the interval are at most `burstBound` of the entry. -/
theorem allowedIn_AllowSeq_le (k : GoString) (q : Int) (a b : Time) (hq : 1 ≤ q)
    (h64 : isInt64 q) (hab : b ≤ a + Minute) :
    ∀ (ts : List Time) (rl : RateLimiter), rl.maxPerMinute = q →
      (∀ e, rl.limits k = some e → 1 ≤ e.count ∧ e.count ≤ q) → nonDecreasing ts →
      (allowedIn a b ts (AllowSeq rl k ts).2 : Int) ≤ burstBound q a b (rl.limits k) := by
  intro ts
  induction ts with
  | nil =>
    intro rl _ hinv _
    have h0 : allowedIn a b [] (AllowSeq rl k []).2 = 0 := rfl
    rw [h0]
    exact burstBound_nonneg q a b hq _ hinv
  | cons t rest ih =>
    intro rl hm hinv hnd
    obtain ⟨hhead, hsorted⟩ := List.pairwise_cons.mp hnd
    rw [AllowSeq_cons]
    show ((allowedIn a b (t :: rest)
      ((Allow rl t k).2 :: (AllowSeq (Allow rl t k).1 k rest).2) : Nat) : Int) ≤ _
    rw [allowedIn_cons]
    obtain ⟨ind, hI1, hI2, hI3, hI4, hind⟩ : ∃ ind : Nat, (ind : Int) ≤ 1 ∧
        ((Allow rl t k).2 = false → (ind : Int) = 0) ∧ (¬ a ≤ t → (ind : Int) = 0) ∧
        (¬ t ≤ b → (ind : Int) = 0) ∧
        (if (Allow rl t k).2 = true ∧ a ≤ t ∧ t ≤ b then 1 else 0) = ind := by
      refine ⟨_, ?_, ?_, ?_, ?_, rfl⟩
      · split_ifs <;> simp
      · intro hf
        rw [if_neg (by rw [hf]; simp)]
        rfl
      · intro ha
        rw [if_neg (fun h => ha h.2.1)]
        rfl
      · intro hb
        rw [if_neg (fun h => hb h.2.2)]
        rfl
    rw [hind]
    push_cast
    by_cases hb : b < t
    · rw [allowedIn_eq_zero a b rest _ (fun t' ht' => lt_of_lt_of_le hb (hhead t' ht'))]
      have h0 := hI4 (not_le.mpr hb)
      have hnn := burstBound_nonneg q a b hq _ hinv
      push_cast
      linarith
    · have htb : t ≤ b := not_lt.mp hb
      cases hl : rl.limits k with
      | none =>
        rw [Allow_fresh rl k t hl]
        have hih := ih (RateLimiter.mk (rl.limits.store k (accountLimit.mk 1 (t + Minute)))
          rl.maxPerMinute) hm (opened_counts rl k t q hq) hsorted
        rw [show (RateLimiter.mk (rl.limits.store k (accountLimit.mk 1 (t + Minute)))
          rl.maxPerMinute).limits k = some (accountLimit.mk 1 (t + Minute)) from
          Table.store_same _ _ _] at hih
        obtain ⟨hin, hle⟩ := burstBound_opened q a b t hq hab
        show _ ≤ 2 * q - 1
        by_cases ha : a ≤ t
        · rw [hin ha] at hih
          linarith
        · have h0 := hI3 ha
          linarith
      | some e =>
        have hbnd := hinv e hl
        by_cases hexp : t > e.resetTime
        · rw [Allow_after_window rl k t e hl hexp]
          have hih := ih (RateLimiter.mk (rl.limits.store k (accountLimit.mk 1 (t + Minute)))
            rl.maxPerMinute) hm (opened_counts rl k t q hq) hsorted
          rw [show (RateLimiter.mk (rl.limits.store k (accountLimit.mk 1 (t + Minute)))
            rl.maxPerMinute).limits k = some (accountLimit.mk 1 (t + Minute)) from
            Table.store_same _ _ _] at hih
          obtain ⟨hin, hle⟩ := burstBound_opened q a b t hq hab
          show _ ≤ (if b ≤ e.resetTime then q - e.count
            else if a ≤ e.resetTime then 2 * q - e.count else 2 * q - 1)
          rw [if_neg (by linarith)]
          by_cases ha : a ≤ t
          · rw [hin ha] at hih
            split_ifs <;> linarith
          · have h0 := hI3 ha
            rw [if_neg (by linarith)]
            linarith
        · have hin : t ≤ e.resetTime := not_lt.mp hexp
          by_cases hlt : e.count < rl.maxPerMinute
          · have hc : isInt64 e.count := by
              unfold isInt64 at *
              omega
            rw [Allow_in_window_below rl k t e hl hin hlt hc (by rw [hm]; exact h64)]
            have hih := ih
              (RateLimiter.mk (rl.limits.store k (accountLimit.mk (e.count + 1) e.resetTime))
                rl.maxPerMinute) hm
              (by
                intro e' he'
                have h1 : some (accountLimit.mk (e.count + 1) e.resetTime) = some e' := by
                  rw [← he']
                  exact (Table.store_same _ _ _).symm
                cases h1
                simp only
                omega) hsorted
            rw [show (RateLimiter.mk
              (rl.limits.store k (accountLimit.mk (e.count + 1) e.resetTime))
              rl.maxPerMinute).limits k = some (accountLimit.mk (e.count + 1) e.resetTime) from
              Table.store_same _ _ _] at hih
            have hih2 : (allowedIn a b rest (AllowSeq (RateLimiter.mk
                (rl.limits.store k (accountLimit.mk (e.count + 1) e.resetTime))
                rl.maxPerMinute) k rest).2 : Int)
                ≤ (if b ≤ e.resetTime then q - (e.count + 1)
                  else if a ≤ e.resetTime then 2 * q - (e.count + 1) else 2 * q - 1) := hih
            show _ ≤ (if b ≤ e.resetTime then q - e.count
              else if a ≤ e.resetTime then 2 * q - e.count else 2 * q - 1)
            by_cases ha : a ≤ t
            · split_ifs at hih2 ⊢ <;> linarith
            · have h0 := hI3 ha
              split_ifs at hih2 ⊢ <;> linarith
          · rw [Allow_in_window_full rl k t e hl hin hlt]
            have hih := ih rl hm hinv hsorted
            rw [hl] at hih
            have h0 : (ind : Int) = 0 := by
              apply hI2
              rw [Allow_in_window_full rl k t e hl hin hlt]
            linarith

end middleware

namespace middleware

/-- A sequence of `Allow` calls keeps the quota and the counter invariant. -/
theorem AllowSeq_invariant (k : GoString) (pre : List Time) :
    ∀ rl : RateLimiter, 1 ≤ rl.maxPerMinute → isInt64 rl.maxPerMinute →
      countsWithinQuota rl →
      (AllowSeq rl k pre).1.maxPerMinute = rl.maxPerMinute ∧
      countsWithinQuota (AllowSeq rl k pre).1 := by
  induction pre with
  | nil =>
    intro rl _ _ hinv
    exact ⟨rfl, hinv⟩
  | cons t rest ih =>
    intro rl hq h64 hinv
    have hm := Allow_maxPerMinute rl t k
    have := ih (Allow rl t k).1 (by rw [hm]; exact hq) (by rw [hm]; exact h64)
      (Allow_countsWithinQuota rl t k hq h64 hinv)
    rw [hm] at this
    rw [AllowSeq_cons]
    exact this

/-- From the call that opens a window on, at most a quota of calls return
true up to the reset time of that window. -/
theorem window_quota (k : GoString) (q : Int) (hq : 1 ≤ q) (h64 : isInt64 q)
    (rl : RateLimiter) (hm : rl.maxPerMinute = q) (s : Time) (rest : List Time)
    (hopen : opensWindow rl s k) (hnd : nonDecreasing (s :: rest)) :
    (allowedIn s (s + Minute) (s :: rest) (AllowSeq rl k (s :: rest)).2 : Int) ≤ q := by
  have hA : Allow rl s k =
      (RateLimiter.mk (rl.limits.store k (accountLimit.mk 1 (s + Minute))) rl.maxPerMinute,
        true) := by
    rcases hopen with hnone | ⟨e, hsome, hexp⟩
    · exact Allow_fresh rl k s hnone
    · exact Allow_after_window rl k s e hsome hexp
  obtain ⟨_, hsorted⟩ := List.pairwise_cons.mp hnd
  have hrest := allowedIn_AllowSeq_le k q s (s + Minute) hq h64 (le_refl _) rest
    (RateLimiter.mk (rl.limits.store k (accountLimit.mk 1 (s + Minute))) rl.maxPerMinute)
    hm (opened_counts rl k s q hq) hsorted
  rw [show (RateLimiter.mk (rl.limits.store k (accountLimit.mk 1 (s + Minute)))
    rl.maxPerMinute).limits k = some (accountLimit.mk 1 (s + Minute)) from
    Table.store_same _ _ _, (burstBound_opened q s (s + Minute) s hq (le_refl _)).1 (le_refl s)]
    at hrest
  rw [AllowSeq_cons, hA]
  show ((allowedIn s (s + Minute) (s :: rest)
    (true :: (AllowSeq (RateLimiter.mk (rl.limits.store k (accountLimit.mk 1 (s + Minute)))
      rl.maxPerMinute) k rest).2) : Nat) : Int) ≤ q
  rw [allowedIn_cons]
  have hind : (if true = true ∧ s ≤ s ∧ s ≤ s + Minute then 1 else 0 : Nat) ≤ 1 := by
    split_ifs <;> simp
  have hind' : ((if true = true ∧ s ≤ s ∧ s ≤ s + Minute then 1 else 0 : Nat) : Int) ≤ 1 := by
    exact_mod_cast hind
  push_cast at hind' ⊢
  linarith

/-- C30: burst bound of the fixed window. For every quota Q >= 1 (an int),
every key k and every sequence of `Allow(k)` calls at non-decreasing times
starting from any state reachable from the empty table by `Allow`,
`GetRemaining` and `cleanup` steps: the number of calls that return true
among those whose times fall in any one closed time interval of length at
most 60 seconds is at most 2Q - 1, and from any call of the sequence that
opens a window, at most Q calls return true up to that window's reset
time. -/
theorem C30_burst_bound (q : Int) (hq : 1 ≤ q) (h64 : isInt64 q) (ops : List Op)
    (k : GoString) (ts : List Time) (hnd : nonDecreasing ts) :
    (∀ a b : Time, b ≤ a + 60000000000 →
      (allowedIn a b ts (AllowSeq (runOps (NewRateLimiter q) ops) k ts).2 : Int)
        ≤ 2 * q - 1) ∧
    (∀ (pre : List Time) (s : Time) (rest : List Time), ts = pre ++ s :: rest →
      opensWindow (AllowSeq (runOps (NewRateLimiter q) ops) k pre).1 s k →
      (allowedIn s (s + 60000000000) (s :: rest)
        (AllowSeq (AllowSeq (runOps (NewRateLimiter q) ops) k pre).1 k (s :: rest)).2 : Int)
        ≤ q) := by
  obtain ⟨hm, hinv⟩ :=
    runOps_invariant ops (NewRateLimiter q) hq h64 (NewRateLimiter_countsWithinQuota q)
  have hm' : (runOps (NewRateLimiter q) ops).maxPerMinute = q := hm
  constructor
  · intro a b hab
    have h := allowedIn_AllowSeq_le k q a b hq h64 hab ts (runOps (NewRateLimiter q) ops) hm'
      (fun e he => by
        have := hinv k e he
        rw [hm'] at this
        exact this) hnd
    have hle := burstBound_le q a b hq ((runOps (NewRateLimiter q) ops).limits k)
      (fun e he => by
        have := hinv k e he
        rw [hm'] at this
        exact this)
    linarith
  · intro pre s rest hts hopen
    obtain ⟨hm2, _⟩ := AllowSeq_invariant k pre (runOps (NewRateLimiter q) ops)
      (by rw [hm']; exact hq) (by rw [hm']; exact h64) hinv
    have hnd' : nonDecreasing (s :: rest) := by
      unfold nonDecreasing at *
      rw [hts] at hnd
      exact (List.pairwise_append.mp hnd).2.1
    exact window_quota k q hq h64 _ (by rw [hm2]; exact hm') s rest hopen hnd'

/-- Witness of C30 for Q = 2: the calls at 59.999999999 s, 60.000000001 s and
60.000000002 s return true inside an interval of 60 s, which is 2Q - 1 = 3
calls. -/
theorem C30_burst_bound_witness :
    (allowedIn 3 60000000003
        [0, 59999999999, 60000000000, 60000000001, 60000000002, 60000000003]
        (AllowSeq (runOps (NewRateLimiter 2) []) (goStr "5112830366")
          [0, 59999999999, 60000000000, 60000000001, 60000000002, 60000000003]).2 : Int)
      ≤ 2 * 2 - 1 ∧
    allowedIn 3 60000000003
        [0, 59999999999, 60000000000, 60000000001, 60000000002, 60000000003]
        (AllowSeq (runOps (NewRateLimiter 2) []) (goStr "5112830366")
          [0, 59999999999, 60000000000, 60000000001, 60000000002, 60000000003]).2 = 3 ∧
    (AllowSeq (runOps (NewRateLimiter 2) []) (goStr "5112830366")
        [0, 59999999999, 60000000000, 60000000001, 60000000002, 60000000003]).2
      = [true, true, false, true, true, false] :=
  ⟨(C30_burst_bound 2 (by decide) (by decide) [] (goStr "5112830366")
      [0, 59999999999, 60000000000, 60000000001, 60000000002, 60000000003]
      (by unfold nonDecreasing; decide)).1 3 60000000003 (by decide),
   by decide, by decide⟩

end middleware
